import Mathlib

/-!
Verification of the Strategy Decision & Risk Validation Engine
(option-thetagang repository) against its natural-language specification.

The Python source is shallowly embedded:
* Python floats are modelled as rationals (all claims are algebraic, not
  about IEEE rounding);
* `datetime` values are modelled at day granularity as integers (every
  comparison in the source goes through `.date()` and day differences `.days`);
* Python `None` becomes `Option`;
* the human-readable f-string reason/justification messages are modelled by
  an inductive type `Reason`, one constructor per message template carrying
  the interpolated numeric parameters (the mapping template × parameters →
  string is injective, so list equalities over `Reason` are faithful to the
  corresponding string-list equalities).
-/

namespace ThetaGang

/-- Truncation towards zero, the semantics of Python `int(x)` on a float. -/
def pyInt (x : ℚ) : Int := if 0 ≤ x then ⌊x⌋ else ⌈x⌉

/-! ## Data model (src/data_fetcher.py) -/

/-- One tradable option instance (`OptionChainData` in src/data_fetcher.py).
`expiration` is the day number of the expiration date. -/
structure OptionChainData where
  symbol : String
  strike : ℚ
  expiration : Int
  right : String
  bid : ℚ
  ask : ℚ
  last : ℚ := 0
  volume : Int := 0
  open_interest : Int := 0
  delta : Option ℚ := none
  gamma : Option ℚ := none
  theta : Option ℚ := none
  vega : Option ℚ := none
  iv : Option ℚ := none
  deriving DecidableEq, Repr

/-- One held instrument (`Position` in src/data_fetcher.py). -/
structure Position where
  symbol : String
  position_type : String
  quantity : Int
  avg_cost : ℚ
  market_value : ℚ
  unrealized_pnl : ℚ := 0
  realized_pnl : ℚ := 0
  strike : Option ℚ := none
  expiration : Option Int := none
  right : Option String := none
  deriving DecidableEq, Repr

/-- Account balance information (`AccountInfo` in src/data_fetcher.py). -/
structure AccountInfo where
  account_number : String := ""
  net_liquidation : ℚ
  total_cash : ℚ := 0
  buying_power : ℚ
  available_funds : ℚ := 0
  excess_liquidity : ℚ := 0
  margin_used : ℚ
  margin_available : ℚ := 0
  deriving DecidableEq, Repr

/-! ## Configuration records (src/config_loader.py) -/

/-- Per-symbol trading configuration (`SymbolConfig`). -/
structure SymbolConfig where
  symbol : String
  enabled : Bool := true
  max_positions : Int := 1
  target_delta : ℚ := 3/10
  min_premium : ℚ := 0
  min_premium_percent : ℚ := 0
  dte_min : Int := 30
  dte_max : Int := 45
  roll_when_dte : Int := 21
  roll_when_pnl_percent : ℚ := 50
  write_calls_on_assignment : Bool := true
  max_position_size_percent : ℚ := 10
  deriving DecidableEq, Repr

/-- Risk management configuration (`RiskConfig`). -/
structure RiskConfig where
  max_portfolio_margin_usage : ℚ := 1/2
  max_concentration_per_symbol : ℚ := 1/4
  max_vix_for_new_positions : Option ℚ := none
  reduce_size_when_vix_above : Option ℚ := some 30
  vix_size_reduction_factor : ℚ := 1/2
  enable_stop_loss : Bool := false
  stop_loss_percent : ℚ := 50
  max_total_positions : Option Int := none
  deriving DecidableEq, Repr

/-- Strategy enablement configuration (`StrategyConfig`). -/
structure StrategyConfig where
  strategy_name : String := "wheel"
  wheel_enabled : Bool := true
  prefer_cash_secured_puts : Bool := true
  iron_condor_enabled : Bool := false
  strangle_enabled : Bool := false
  deriving DecidableEq, Repr

/-- Lookup in the per-symbol configuration dictionary (`dict.get`). -/
def lookupSymbolConfig (cfgs : List (String × SymbolConfig)) (sym : String) :
    Option SymbolConfig :=
  (cfgs.find? (fun kv => kv.1 = sym)).map (fun kv => kv.2)

/-! ## Recommendation model (src/strategy_base.py) -/

/-- Trade action types (`Action` enum). -/
inductive Action where
  | SELL_PUT | SELL_CALL | ROLL_PUT | ROLL_CALL | CLOSE_PUT | CLOSE_CALL
  | SELL_IRON_CONDOR | CLOSE_IRON_CONDOR | ROLL_IRON_CONDOR
  | ADJUST_IRON_CONDOR | DO_NOTHING
  deriving DecidableEq, Repr

/-- Strategy type identifiers (`StrategyType` enum). -/
inductive StrategyType where
  | WHEEL | IRON_CONDOR | STRANGLE | BUTTERFLY | CALENDAR
  deriving DecidableEq, Repr

/-- Human-readable message templates with their interpolated parameters;
one constructor per distinct f-string in the source. -/
inductive Reason where
  | vixExceedsMax (vix maxVix : ℚ)
  | vixReduce (vix threshold : ℚ) (fromQty toQty : Int)
  | equityNonPositive
  | marginWouldExceed (newUsage limit : ℚ)
  | atMaxTotalPositions (limit : Int)
  | atMaxSymbolPositions (symbol : String) (limit : Int)
  | concentrationZeroEquity
  | concentrationWouldExceed (symbol : String) (pct limit : ℚ)
  | concentrationSymbolLimit (symbol : String) (pct limit : ℚ)
  | insufficientBuyingPower (need have_ : ℚ)
  | closePutForProfit (pnl target : ℚ)
  | closeCallForProfit (pnl target : ℚ)
  | rollPut (dte threshold : Int)
  | rollCall (dte threshold : Int)
  | sellCashSecuredPut (strike expiration mid : ℚ)
  | sellCoveredCall (strike expiration mid : ℚ)
  | closeIronCondorProfit (pnl target : ℚ)
  | closeIronCondorLoss (pnl maxLoss : ℚ)
  | rollIronCondor (dte : Int)
  | adjustIronCondor (price putStrike callStrike : ℚ)
  | sellIronCondor (lp sp sc lc credit : ℚ)
  | emptyReason
  deriving DecidableEq, Repr

/-- Recommended trade action (`TradeRecommendation` dataclass). -/
structure TradeRecommendation where
  action : Action
  symbol : String
  quantity : Int
  strategy_type : StrategyType
  strike : Option ℚ := none
  expiration : Option Int := none
  right : Option String := none
  premium : Option ℚ := none
  delta : Option ℚ := none
  long_call_strike : Option ℚ := none
  short_call_strike : Option ℚ := none
  long_put_strike : Option ℚ := none
  short_put_strike : Option ℚ := none
  existing_position : Option Position := none
  new_strike : Option ℚ := none
  new_expiration : Option Int := none
  reasoning : Reason := Reason.emptyReason
  expected_credit : Option ℚ := none
  max_loss : Option ℚ := none
  max_profit : Option ℚ := none
  deriving DecidableEq, Repr

/-! ## Risk manager (src/risk_manager.py) -/

/-- Types of risk violations (`RiskViolation` enum). -/
inductive RiskViolation where
  | MARGIN_EXCEEDED | CONCENTRATION_EXCEEDED | POSITION_LIMIT_EXCEEDED
  | VIX_TOO_HIGH | BUYING_POWER_INSUFFICIENT | PORTFOLIO_OVEREXPOSED
  | STOP_LOSS_TRIGGERED
  deriving DecidableEq, Repr

/-- Result of a risk check (`RiskCheckResult` dataclass). -/
structure RiskCheckResult where
  approved : Bool
  violations : List RiskViolation
  reasons : List Reason
  adjusted_quantity : Option Int := none
  deriving DecidableEq, Repr

/-- `RiskManager._check_vix_limits`. -/
def checkVixLimits (cfg : RiskConfig) (vix : ℚ)
    (r : TradeRecommendation) : RiskCheckResult :=
  let blockPart : List RiskViolation × List Reason :=
    match cfg.max_vix_for_new_positions with
    | some maxVix =>
        if vix > maxVix ∧
            (r.action = Action.SELL_PUT ∨ r.action = Action.SELL_CALL) then
          ([RiskViolation.VIX_TOO_HIGH], [Reason.vixExceedsMax vix maxVix])
        else ([], [])
    | none => ([], [])
  let reducePart : Option Int × List Reason :=
    match cfg.reduce_size_when_vix_above with
    | some threshold =>
        if vix > threshold ∧
            (r.action = Action.SELL_PUT ∨ r.action = Action.SELL_CALL) then
          let reducedQty := pyInt ((r.quantity : ℚ) * cfg.vix_size_reduction_factor)
          if reducedQty < r.quantity then
            (some (max 1 reducedQty),
             [Reason.vixReduce vix threshold r.quantity (max 1 reducedQty)])
          else (none, [])
        else (none, [])
    | none => (none, [])
  { approved := blockPart.1.isEmpty
    violations := blockPart.1
    reasons := blockPart.2 ++ reducePart.2
    adjusted_quantity := reducePart.1 }

/-- `RiskManager._estimate_margin_requirement`. -/
def estimateMarginRequirement (r : TradeRecommendation) : ℚ :=
  if r.action = Action.SELL_PUT then
    match r.strike with
    | some k => k * 100 * r.quantity
    | none => 0
  else 0

/-- `RiskManager._estimate_position_value`.  (Python's `if recommendation.strike:`
treats both `None` and `0.0` as falsy; for strike `0.0` both branches give `0`.) -/
def estimatePositionValue (r : TradeRecommendation) : ℚ :=
  match r.strike with
  | some k => k * 100 * r.quantity
  | none => 0

/-- `RiskManager._estimate_buying_power_requirement`. -/
def estimateBuyingPowerRequirement (r : TradeRecommendation) : ℚ :=
  estimateMarginRequirement r

/-- `RiskManager._check_margin_usage`. -/
def checkMarginUsage (cfg : RiskConfig) (r : TradeRecommendation)
    (_positions : List Position) (account : AccountInfo) : RiskCheckResult :=
  let currentMargin := account.margin_used
  let totalEquity := account.net_liquidation
  if totalEquity ≤ 0 then
    { approved := false
      violations := [RiskViolation.MARGIN_EXCEEDED]
      reasons := [Reason.equityNonPositive] }
  else
    let additionalMargin := estimateMarginRequirement r
    let newUsagePct := (currentMargin + additionalMargin) / totalEquity
    if newUsagePct > cfg.max_portfolio_margin_usage then
      { approved := false
        violations := [RiskViolation.MARGIN_EXCEEDED]
        reasons := [Reason.marginWouldExceed newUsagePct cfg.max_portfolio_margin_usage] }
    else
      { approved := true, violations := [], reasons := [] }

/-- `RiskManager._check_position_limits`. -/
def checkPositionLimits (cfg : RiskConfig)
    (symbolConfigs : List (String × SymbolConfig))
    (r : TradeRecommendation) (positions : List Position) : RiskCheckResult :=
  let isNewPosition := r.action = Action.SELL_PUT ∨ r.action = Action.SELL_CALL
  let totalPart : List RiskViolation × List Reason :=
    match cfg.max_total_positions with
    | some maxTotal =>
        let currentPositions :=
          ((positions.filter (fun p => p.quantity ≠ 0)).length : Int)
        if isNewPosition ∧ currentPositions ≥ maxTotal then
          ([RiskViolation.POSITION_LIMIT_EXCEEDED],
           [Reason.atMaxTotalPositions maxTotal])
        else ([], [])
    | none => ([], [])
  let symbolPart : List RiskViolation × List Reason :=
    match lookupSymbolConfig symbolConfigs r.symbol with
    | some symbolConfig =>
        let currentCount :=
          ((positions.filter
              (fun p => p.symbol = r.symbol ∧ p.quantity ≠ 0)).length : Int)
        if isNewPosition ∧ currentCount ≥ symbolConfig.max_positions then
          ([RiskViolation.POSITION_LIMIT_EXCEEDED],
           [Reason.atMaxSymbolPositions r.symbol symbolConfig.max_positions])
        else ([], [])
    | none => ([], [])
  { approved := (totalPart.1 ++ symbolPart.1).isEmpty
    violations := totalPart.1 ++ symbolPart.1
    reasons := totalPart.2 ++ symbolPart.2 }

/-- Absolute market-value exposure of a symbol's positions. -/
def symbolExposure (positions : List Position) (sym : String) : ℚ :=
  ((positions.filter (fun p => p.symbol = sym)).map
    (fun p => |p.market_value|)).sum

/-- `RiskManager._check_concentration`.  (Python's
`if symbol_config and symbol_config.max_position_size_percent:` skips the
symbol-specific limit when the configured percent equals `0.0`.) -/
def checkConcentration (cfg : RiskConfig)
    (symbolConfigs : List (String × SymbolConfig))
    (r : TradeRecommendation) (positions : List Position)
    (account : AccountInfo) : RiskCheckResult :=
  let totalEquity := account.net_liquidation
  if totalEquity ≤ 0 then
    { approved := false
      violations := [RiskViolation.CONCENTRATION_EXCEEDED]
      reasons := [Reason.concentrationZeroEquity] }
  else
    let currentExposure := symbolExposure positions r.symbol
    let additionalExposure := estimatePositionValue r
    let concentrationPct := (currentExposure + additionalExposure) / totalEquity
    let globalPart : List RiskViolation × List Reason :=
      if concentrationPct > cfg.max_concentration_per_symbol then
        ([RiskViolation.CONCENTRATION_EXCEEDED],
         [Reason.concentrationWouldExceed r.symbol concentrationPct
            cfg.max_concentration_per_symbol])
      else ([], [])
    let symbolPart : List RiskViolation × List Reason :=
      match lookupSymbolConfig symbolConfigs r.symbol with
      | some symbolConfig =>
          if symbolConfig.max_position_size_percent ≠ 0 then
            let limitPct := symbolConfig.max_position_size_percent / 100
            if concentrationPct > limitPct then
              ([RiskViolation.CONCENTRATION_EXCEEDED],
               [Reason.concentrationSymbolLimit r.symbol concentrationPct limitPct])
            else ([], [])
          else ([], [])
      | none => ([], [])
    { approved := (globalPart.1 ++ symbolPart.1).isEmpty
      violations := globalPart.1 ++ symbolPart.1
      reasons := globalPart.2 ++ symbolPart.2 }

/-- `RiskManager._check_buying_power`. -/
def checkBuyingPower (r : TradeRecommendation)
    (account : AccountInfo) : RiskCheckResult :=
  let requiredBp := estimateBuyingPowerRequirement r
  if requiredBp > account.buying_power then
    { approved := false
      violations := [RiskViolation.BUYING_POWER_INSUFFICIENT]
      reasons := [Reason.insufficientBuyingPower requiredBp account.buying_power] }
  else
    { approved := true, violations := [], reasons := [] }

/-- `RiskManager.validate_trade`: runs the five sub-checks, accumulating
violations and reasons of the failing ones; the VIX check's adjusted
quantity is read only inside its failing branch, exactly as in the source. -/
def validateTrade (cfg : RiskConfig)
    (symbolConfigs : List (String × SymbolConfig))
    (r : TradeRecommendation) (positions : List Position)
    (account : AccountInfo) (currentVix : Option ℚ) : RiskCheckResult :=
  let vixStep : List RiskViolation × List Reason × Option Int :=
    match currentVix with
    | some vix =>
        let vixCheck := checkVixLimits cfg vix r
        if vixCheck.approved then ([], [], none)
        else (vixCheck.violations, vixCheck.reasons, vixCheck.adjusted_quantity)
    | none => ([], [], none)
  let marginCheck := checkMarginUsage cfg r positions account
  let marginStep : List RiskViolation × List Reason :=
    if marginCheck.approved then ([], [])
    else (marginCheck.violations, marginCheck.reasons)
  let positionCheck := checkPositionLimits cfg symbolConfigs r positions
  let positionStep : List RiskViolation × List Reason :=
    if positionCheck.approved then ([], [])
    else (positionCheck.violations, positionCheck.reasons)
  let concentrationCheck := checkConcentration cfg symbolConfigs r positions account
  let concentrationStep : List RiskViolation × List Reason :=
    if concentrationCheck.approved then ([], [])
    else (concentrationCheck.violations, concentrationCheck.reasons)
  let bpCheck := checkBuyingPower r account
  let bpStep : List RiskViolation × List Reason :=
    if bpCheck.approved then ([], [])
    else (bpCheck.violations, bpCheck.reasons)
  let violations := vixStep.1 ++ marginStep.1 ++ positionStep.1 ++
    concentrationStep.1 ++ bpStep.1
  let reasons := vixStep.2.1 ++ marginStep.2 ++ positionStep.2 ++
    concentrationStep.2 ++ bpStep.2
  { approved := violations.isEmpty
    violations := violations
    reasons := reasons
    adjusted_quantity := vixStep.2.2 }

/-! ## Strategy base (src/strategy_base.py) -/

/-- Days to expiration at evaluation day `today`. -/
def optionDte (today : Int) (o : OptionChainData) : Int := o.expiration - today

/-- The candidate filter of `Strategy._find_option_by_delta`: matching right,
DTE within the inclusive window, non-missing delta, strictly positive bid
and ask. -/
def deltaCandidates (chain : List OptionChainData) (right : String)
    (today dteMin dteMax : Int) : List OptionChainData :=
  chain.filter (fun o => decide (o.right = right ∧
    dteMin ≤ optionDte today o ∧ optionDte today o ≤ dteMax ∧
    o.delta ≠ none ∧ 0 < o.bid ∧ 0 < o.ask))

/-- The signed delta target: `-|target|` for puts, `+|target|` otherwise. -/
def signedTarget (right : String) (targetDelta : ℚ) : ℚ :=
  if right = "P" then -|targetDelta| else |targetDelta|

/-- Distance of a candidate's delta from the signed target. -/
def deltaKey (target : ℚ) (o : OptionChainData) : ℚ := |o.delta.getD 0 - target|

/-- Python's `min(candidates, key=...)`: first element attaining the minimal
key (later elements replace the current best only on a strictly smaller key). -/
def selectBest {α : Type} (key : α → ℚ) : List α → Option α
  | [] => none
  | x :: xs => some (xs.foldl (fun b o => if key o < key b then o else b) x)

/-- `Strategy._find_option_by_delta`.  (`stockPrice` is accepted and unused,
as in the source.) -/
def findOptionByDelta (chain : List OptionChainData) (right : String)
    (targetDelta : ℚ) (stockPrice : ℚ) (today dteMin dteMax : Int) :
    Option OptionChainData :=
  let _ := stockPrice
  selectBest (deltaKey (signedTarget right targetDelta))
    (deltaCandidates chain right today dteMin dteMax)

/-! ## Wheel strategy (src/core_strategy.py) -/

/-- `WheelStrategy._check_put_position`. -/
def checkPutPosition (cfg : SymbolConfig) (today : Int) (pos : Position)
    (stockPrice : ℚ) (chain : List OptionChainData) :
    Option TradeRecommendation :=
  match pos.expiration with
  | none => none
  | some expDay =>
    let dte := expDay - today
    let entryCredit := |pos.avg_cost|
    let currentValue := |pos.market_value|
    let pnlPercent :=
      if entryCredit > 0 then (entryCredit - currentValue) / entryCredit * 100
      else 0
    if pnlPercent ≥ cfg.roll_when_pnl_percent then
      some { action := Action.CLOSE_PUT
             symbol := cfg.symbol
             quantity := |pos.quantity|
             strategy_type := StrategyType.WHEEL
             existing_position := some pos
             reasoning := Reason.closePutForProfit pnlPercent cfg.roll_when_pnl_percent }
    else if dte ≤ cfg.roll_when_dte then
      match findOptionByDelta chain "P" cfg.target_delta stockPrice today
          cfg.dte_min cfg.dte_max with
      | some newOption =>
          some { action := Action.ROLL_PUT
                 symbol := cfg.symbol
                 quantity := |pos.quantity|
                 strategy_type := StrategyType.WHEEL
                 existing_position := some pos
                 new_strike := some newOption.strike
                 new_expiration := some newOption.expiration
                 premium := some ((newOption.bid + newOption.ask) / 2)
                 delta := newOption.delta
                 reasoning := Reason.rollPut dte cfg.roll_when_dte }
      | none => none
    else none

/-- `WheelStrategy._check_call_position`. -/
def checkCallPosition (cfg : SymbolConfig) (today : Int) (pos : Position)
    (stockPrice : ℚ) (chain : List OptionChainData) :
    Option TradeRecommendation :=
  match pos.expiration with
  | none => none
  | some expDay =>
    let dte := expDay - today
    let entryCredit := |pos.avg_cost|
    let currentValue := |pos.market_value|
    let pnlPercent :=
      if entryCredit > 0 then (entryCredit - currentValue) / entryCredit * 100
      else 0
    if pnlPercent ≥ cfg.roll_when_pnl_percent then
      some { action := Action.CLOSE_CALL
             symbol := cfg.symbol
             quantity := |pos.quantity|
             strategy_type := StrategyType.WHEEL
             existing_position := some pos
             reasoning := Reason.closeCallForProfit pnlPercent cfg.roll_when_pnl_percent }
    else if dte ≤ cfg.roll_when_dte then
      match findOptionByDelta chain "C" cfg.target_delta stockPrice today
          cfg.dte_min cfg.dte_max with
      | some newOption =>
          some { action := Action.ROLL_CALL
                 symbol := cfg.symbol
                 quantity := |pos.quantity|
                 strategy_type := StrategyType.WHEEL
                 existing_position := some pos
                 new_strike := some newOption.strike
                 new_expiration := some newOption.expiration
                 premium := some ((newOption.bid + newOption.ask) / 2)
                 delta := newOption.delta
                 reasoning := Reason.rollCall dte cfg.roll_when_dte }
      | none => none
    else none

/-- `WheelStrategy._find_cash_secured_put`. -/
def findCashSecuredPut (cfg : SymbolConfig) (today : Int) (stockPrice : ℚ)
    (chain : List OptionChainData) (account : AccountInfo) (quantity : Int) :
    Option TradeRecommendation :=
  match findOptionByDelta chain "P" cfg.target_delta stockPrice today
      cfg.dte_min cfg.dte_max with
  | none => none
  | some opt =>
    let midPrice := (opt.bid + opt.ask) / 2
    if cfg.min_premium > 0 ∧ midPrice < cfg.min_premium then none
    else if cfg.min_premium_percent > 0 ∧
        midPrice / stockPrice * 100 < cfg.min_premium_percent then none
    else if opt.strike * 100 * quantity > account.buying_power then none
    else
      some { action := Action.SELL_PUT
             symbol := cfg.symbol
             quantity := quantity
             strategy_type := StrategyType.WHEEL
             strike := some opt.strike
             expiration := some opt.expiration
             right := some "P"
             premium := some midPrice
             delta := opt.delta
             reasoning := Reason.sellCashSecuredPut opt.strike opt.expiration midPrice }

/-- `WheelStrategy._find_covered_call`. -/
def findCoveredCall (cfg : SymbolConfig) (today : Int) (stockPrice : ℚ)
    (chain : List OptionChainData) (quantity : Int) :
    Option TradeRecommendation :=
  match findOptionByDelta chain "C" cfg.target_delta stockPrice today
      cfg.dte_min cfg.dte_max with
  | none => none
  | some opt =>
    let midPrice := (opt.bid + opt.ask) / 2
    if cfg.min_premium > 0 ∧ midPrice < cfg.min_premium then none
    else if cfg.min_premium_percent > 0 ∧
        midPrice / stockPrice * 100 < cfg.min_premium_percent then none
    else
      some { action := Action.SELL_CALL
             symbol := cfg.symbol
             quantity := quantity
             strategy_type := StrategyType.WHEEL
             strike := some opt.strike
             expiration := some opt.expiration
             right := some "C"
             premium := some midPrice
             delta := opt.delta
             reasoning := Reason.sellCoveredCall opt.strike opt.expiration midPrice }

/-- Stock positions of the symbol (`position_type == 'stock'`). -/
def stockPositions (positions : List Position) : List Position :=
  positions.filter (fun p => decide (p.position_type = "stock"))

/-- Option positions with put right. -/
def putPositions (positions : List Position) : List Position :=
  positions.filter (fun p =>
    decide (p.position_type = "option" ∧ p.right = some "P"))

/-- Option positions with call right. -/
def callPositions (positions : List Position) : List Position :=
  positions.filter (fun p =>
    decide (p.position_type = "option" ∧ p.right = some "C"))

/-- `WheelStrategy.analyze`. -/
def wheelAnalyze (cfg : SymbolConfig) (today : Int) (stockPrice : ℚ)
    (chain : List OptionChainData) (positions : List Position)
    (account : AccountInfo) : List TradeRecommendation :=
  if ¬cfg.enabled then []
  else
    let stocks := stockPositions positions
    let puts := putPositions positions
    let calls := callPositions positions
    let putRecs := puts.filterMap
      (fun p => checkPutPosition cfg today p stockPrice chain)
    let callRecs := calls.filterMap
      (fun p => checkCallPosition cfg today p stockPrice chain)
    let hasStock := stocks.any (fun p => p.quantity > 0)
    let hasShortPuts := puts.any (fun p => p.quantity < 0)
    let hasShortCalls := calls.any (fun p => p.quantity < 0)
    let totalShortPuts :=
      ((puts.filter (fun p => p.quantity < 0)).map (fun p => |p.quantity|)).sum
    let totalShortCalls :=
      ((calls.filter (fun p => p.quantity < 0)).map (fun p => |p.quantity|)).sum
    let openRecs : List TradeRecommendation :=
      if hasStock ∧ ¬hasShortCalls then
        let stockQty := (stocks.map (fun p => p.quantity)).sum
        let contractsToSell := Int.fdiv stockQty 100 - totalShortCalls
        if contractsToSell > 0 then
          match findCoveredCall cfg today stockPrice chain contractsToSell with
          | some r => [r]
          | none => []
        else []
      else if ¬hasStock ∧ ¬hasShortPuts then
        if totalShortPuts < cfg.max_positions then
          match findCashSecuredPut cfg today stockPrice chain account
              (cfg.max_positions - totalShortPuts) with
          | some r => [r]
          | none => []
        else []
      else []
    putRecs ++ callRecs ++ openRecs

/-! ## Iron condor strategy (src/iron_condor_strategy.py) -/

/-- The instance parameters fixed in `IronCondorStrategy.__init__`. -/
structure ICParams where
  wing_width : ℚ := 5
  min_credit : ℚ := 1
  profit_target_percent : ℚ := 50
  max_loss_percent : ℚ := 200
  adjustment_threshold : ℚ := 1/10
  deriving DecidableEq, Repr

/-- The literal values assigned in `IronCondorStrategy.__init__`. -/
def defaultICParams : ICParams := {}

/-- A reconstructed four-leg group (the dict built by
`_identify_iron_condor_positions`). -/
structure IronCondorGroup where
  expiration : Int
  long_put : Position
  short_put : Position
  short_call : Position
  long_call : Position
  deriving DecidableEq, Repr

/-- A position's strike with `None` defaulted to 0 (the Python sort key and
strike arithmetic assume the strike is present on option positions). -/
def strikeD (p : Position) : ℚ := p.strike.getD 0

/-- Option positions of a list (`position_type == 'option'`). -/
def optionPositions (positions : List Position) : List Position :=
  positions.filter (fun p => decide (p.position_type = "option"))

/-- Expiration keys in first-occurrence order, as Python's insertion-ordered
dict of `_identify_iron_condor_positions` produces them. -/
def expirationKeys (positions : List Position) : List Int :=
  (optionPositions positions).foldl
    (fun ks p =>
      match p.expiration with
      | some e => if e ∈ ks then ks else ks ++ [e]
      | none => ks) []

/-- The option positions grouped under one expiration key. -/
def groupForExpiration (positions : List Position) (e : Int) : List Position :=
  (optionPositions positions).filter (fun p => decide (p.expiration = some e))

/-- The per-expiration body of `_identify_iron_condor_positions`: requires
exactly two puts and two calls, sorts each pair by strike (Python `sorted`
is stable), assigns short/long candidates by the source's conditional
expressions, and keeps the group only if the four signed-quantity checks
pass. -/
def identifyAtExpiration (e : Int) (expPositions : List Position) :
    List IronCondorGroup :=
  let puts := expPositions.filter (fun p => decide (p.right = some "P"))
  let calls := expPositions.filter (fun p => decide (p.right = some "C"))
  match puts, calls with
  | [pa, pb], [ca, cb] =>
      let putsSorted := if strikeD pb < strikeD pa then (pb, pa) else (pa, pb)
      let callsSorted := if strikeD cb < strikeD ca then (cb, ca) else (ca, cb)
      let short_put :=
        if putsSorted.2.quantity < 0 then putsSorted.2 else putsSorted.1
      let long_put :=
        if putsSorted.1.quantity > 0 then putsSorted.1 else putsSorted.2
      let short_call :=
        if callsSorted.1.quantity < 0 then callsSorted.1 else callsSorted.2
      let long_call :=
        if callsSorted.2.quantity > 0 then callsSorted.2 else callsSorted.1
      if short_put.quantity < 0 ∧ long_put.quantity > 0 ∧
          short_call.quantity < 0 ∧ long_call.quantity > 0 then
        [{ expiration := e, long_put := long_put, short_put := short_put,
           short_call := short_call, long_call := long_call }]
      else []
  | _, _ => []

/-- `IronCondorStrategy._identify_iron_condor_positions`. -/
def identifyIronCondorPositions (positions : List Position) :
    List IronCondorGroup :=
  (expirationKeys positions).flatMap
    (fun e => identifyAtExpiration e (groupForExpiration positions e))

/-- Entry net credit of a reconstructed group. -/
def icEntryCredit (g : IronCondorGroup) : ℚ :=
  (|g.short_put.avg_cost| + |g.short_call.avg_cost|) -
    (|g.long_put.avg_cost| + |g.long_call.avg_cost|)

/-- Current total absolute market value of the four legs. -/
def icCurrentValue (g : IronCondorGroup) : ℚ :=
  |g.short_put.market_value| + |g.short_call.market_value| +
    |g.long_put.market_value| + |g.long_call.market_value|

/-- Profit percent of a reconstructed group (0 when the entry credit is not
positive). -/
def icProfitPct (g : IronCondorGroup) : ℚ :=
  if icEntryCredit g > 0 then
    (icEntryCredit g - icCurrentValue g) / icEntryCredit g * 100
  else 0

/-- `IronCondorStrategy._check_iron_condor_position`. -/
def checkIronCondorPosition (cfg : SymbolConfig) (ic : ICParams) (today : Int)
    (g : IronCondorGroup) (stockPrice : ℚ)
    (_chain : List OptionChainData) : Option TradeRecommendation :=
  let dte := g.expiration - today
  let profitPct := icProfitPct g
  if profitPct ≥ ic.profit_target_percent then
    some { action := Action.CLOSE_IRON_CONDOR
           symbol := cfg.symbol
           quantity := |g.short_put.quantity|
           strategy_type := StrategyType.IRON_CONDOR
           long_put_strike := g.long_put.strike
           short_put_strike := g.short_put.strike
           short_call_strike := g.short_call.strike
           long_call_strike := g.long_call.strike
           expiration := some g.expiration
           reasoning := Reason.closeIronCondorProfit profitPct ic.profit_target_percent }
  else
    let lossPct := if profitPct < 0 then |profitPct| else 0
    if lossPct ≥ ic.max_loss_percent then
      some { action := Action.CLOSE_IRON_CONDOR
             symbol := cfg.symbol
             quantity := |g.short_put.quantity|
             strategy_type := StrategyType.IRON_CONDOR
             long_put_strike := g.long_put.strike
             short_put_strike := g.short_put.strike
             short_call_strike := g.short_call.strike
             long_call_strike := g.long_call.strike
             expiration := some g.expiration
             reasoning := Reason.closeIronCondorLoss profitPct ic.max_loss_percent }
    else if dte ≤ cfg.roll_when_dte then
      some { action := Action.ROLL_IRON_CONDOR
             symbol := cfg.symbol
             quantity := |g.short_put.quantity|
             strategy_type := StrategyType.IRON_CONDOR
             long_put_strike := g.long_put.strike
             short_put_strike := g.short_put.strike
             short_call_strike := g.short_call.strike
             long_call_strike := g.long_call.strike
             expiration := some g.expiration
             reasoning := Reason.rollIronCondor dte }
    else
      let putDistance := |stockPrice - strikeD g.short_put| / stockPrice
      let callDistance := |stockPrice - strikeD g.short_call| / stockPrice
      if putDistance < ic.adjustment_threshold ∨
          callDistance < ic.adjustment_threshold then
        some { action := Action.ADJUST_IRON_CONDOR
               symbol := cfg.symbol
               quantity := |g.short_put.quantity|
               strategy_type := StrategyType.IRON_CONDOR
               long_put_strike := g.long_put.strike
               short_put_strike := g.short_put.strike
               short_call_strike := g.short_call.strike
               long_call_strike := g.long_call.strike
               expiration := some g.expiration
               reasoning := Reason.adjustIronCondor stockPrice
                 (strikeD g.short_put) (strikeD g.short_call) }
      else none

/-- Insertion into an ascending list of day numbers. -/
def insertSortedInt (x : Int) : List Int → List Int
  | [] => [x]
  | y :: ys => if x ≤ y then x :: y :: ys else y :: insertSortedInt x ys

/-- `IronCondorStrategy._get_valid_expirations`: the distinct expirations
within the DTE window, ascending (Python builds a set and sorts it). -/
def getValidExpirations (cfg : SymbolConfig) (today : Int)
    (chain : List OptionChainData) : List Int :=
  ((chain.filterMap (fun o =>
      if cfg.dte_min ≤ optionDte today o ∧ optionDte today o ≤ cfg.dte_max
      then some o.expiration else none)).dedup).foldr insertSortedInt []

/-- `IronCondorStrategy._find_option_at_strike`: first chain entry with the
requested right, exact strike, exact expiration date and positive bid/ask. -/
def findOptionAtStrike (chain : List OptionChainData) (right : String)
    (strike : ℚ) (expiration : Int) : Option OptionChainData :=
  chain.find? (fun o => decide (o.right = right ∧ o.strike = strike ∧
    o.expiration = expiration ∧ o.bid > 0 ∧ o.ask > 0))

/-- Mid-price of an option quote. -/
def midPrice (o : OptionChainData) : ℚ := (o.bid + o.ask) / 2

/-- `IronCondorStrategy._find_new_iron_condor`. -/
def findNewIronCondor (cfg : SymbolConfig) (ic : ICParams) (today : Int)
    (stockPrice : ℚ) (chain : List OptionChainData)
    (_account : AccountInfo) : Option TradeRecommendation :=
  match getValidExpirations cfg today chain with
  | [] => none
  | targetExp :: _ =>
    match findOptionByDelta chain "P" (3/10) stockPrice today
        cfg.dte_min cfg.dte_max with
    | none => none
    | some shortPut =>
      if shortPut.expiration ≠ targetExp then none
      else
        match findOptionAtStrike chain "P" (shortPut.strike - ic.wing_width)
            targetExp with
        | none => none
        | some longPut =>
          match findOptionByDelta chain "C" (3/10) stockPrice today
              cfg.dte_min cfg.dte_max with
          | none => none
          | some shortCall =>
            if shortCall.expiration ≠ targetExp then none
            else
              match findOptionAtStrike chain "C"
                  (shortCall.strike + ic.wing_width) targetExp with
              | none => none
              | some longCall =>
                let netCredit := (midPrice shortPut + midPrice shortCall) -
                  (midPrice longPut + midPrice longCall)
                if netCredit < ic.min_credit then none
                else
                  let putSpreadWidth := shortPut.strike - longPut.strike
                  let callSpreadWidth := longCall.strike - shortCall.strike
                  some { action := Action.SELL_IRON_CONDOR
                         symbol := cfg.symbol
                         quantity := 1
                         strategy_type := StrategyType.IRON_CONDOR
                         long_put_strike := some longPut.strike
                         short_put_strike := some shortPut.strike
                         short_call_strike := some shortCall.strike
                         long_call_strike := some longCall.strike
                         expiration := some targetExp
                         expected_credit := some (netCredit * 100)
                         max_loss := some
                           ((max putSpreadWidth callSpreadWidth - netCredit) * 100)
                         max_profit := some (netCredit * 100)
                         reasoning := Reason.sellIronCondor longPut.strike
                           shortPut.strike shortCall.strike longCall.strike netCredit }

/-- `IronCondorStrategy.analyze`. -/
def icAnalyze (cfg : SymbolConfig) (ic : ICParams) (today : Int)
    (stockPrice : ℚ) (chain : List OptionChainData)
    (positions : List Position) (account : AccountInfo) :
    List TradeRecommendation :=
  if ¬cfg.enabled then []
  else
    let icPositions := identifyIronCondorPositions positions
    let manageRecs := icPositions.filterMap
      (fun g => checkIronCondorPosition cfg ic today g stockPrice chain)
    let openRecs : List TradeRecommendation :=
      if (icPositions.length : Int) < cfg.max_positions then
        match findNewIronCondor cfg ic today stockPrice chain account with
        | some r => [r]
        | none => []
      else []
    manageRecs ++ openRecs

/-! ## Strategy selector (src/strategy_selector.py) -/

/-- Market regime classifications (`MarketRegime` enum). -/
inductive MarketRegime where
  | BULLISH | BEARISH | NEUTRAL | HIGH_VOLATILITY | LOW_VOLATILITY
  deriving DecidableEq, Repr

/-- `StrategySelector._detect_current_strategy`. -/
def detectCurrentStrategy (positions : List Position) : Option StrategyType :=
  if positions.any (fun p => decide (p.position_type = "stock")) then
    some StrategyType.WHEEL
  else
    let opts := optionPositions positions
    if opts.length = 1 then some StrategyType.WHEEL
    else if opts.length = 4 then
      let puts := opts.filter (fun p => decide (p.right = some "P"))
      let calls := opts.filter (fun p => decide (p.right = some "C"))
      if puts.length = 2 ∧ calls.length = 2 then some StrategyType.IRON_CONDOR
      else none
    else none

/-- `StrategySelector._classify_market_regime`.  (Python's `if volatility:`
and `if trend:` treat `0.0` and the empty string as falsy.) -/
def classifyMarketRegime (volatility : Option ℚ) (trend : Option String) :
    MarketRegime :=
  let byVol : Option MarketRegime :=
    match volatility with
    | some v =>
        if v ≠ 0 then
          if v > 7/20 then some MarketRegime.HIGH_VOLATILITY
          else if v < 1/5 then some MarketRegime.LOW_VOLATILITY
          else none
        else none
    | none => none
  match byVol with
  | some regime => regime
  | none =>
    match trend with
    | some t =>
        if t ≠ "" then
          if t.toLower = "bullish" then MarketRegime.BULLISH
          else if t.toLower = "bearish" then MarketRegime.BEARISH
          else MarketRegime.NEUTRAL
        else MarketRegime.NEUTRAL
    | none => MarketRegime.NEUTRAL

/-- The regime-based tail of `StrategySelector.select_best_strategy`
(everything after the continuity rule). -/
def regimeSelect (sc : StrategyConfig) (volatility : Option ℚ)
    (trend : Option String) : Option StrategyType :=
  let regime := classifyMarketRegime volatility trend
  let lowVolNeutral : Bool :=
    match volatility with
    | some v => decide (v ≠ 0 ∧ v < 1/4)
    | none => false
  if regime = MarketRegime.NEUTRAL ∧ lowVolNeutral ∧ sc.iron_condor_enabled then
    some StrategyType.IRON_CONDOR
  else if (regime = MarketRegime.BULLISH ∨ regime = MarketRegime.BEARISH) ∧
      sc.wheel_enabled then
    some StrategyType.WHEEL
  else if regime = MarketRegime.HIGH_VOLATILITY ∧ sc.wheel_enabled then
    some StrategyType.WHEEL
  else if sc.wheel_enabled then some StrategyType.WHEEL
  else none

/-- `StrategySelector.select_best_strategy`, abstracted to the kind of the
strategy instance it returns (the instance itself is just the constructor
applied to the symbol's configuration). -/
def selectBestStrategy (sc : StrategyConfig)
    (symbolConfigs : List (String × SymbolConfig)) (symbol : String)
    (_stockPrice : ℚ) (volatility : Option ℚ) (trend : Option String)
    (existingPositions : Option (List Position)) : Option StrategyType :=
  match lookupSymbolConfig symbolConfigs symbol with
  | none => none
  | some _symbolConfig =>
    let detected : Option StrategyType :=
      match existingPositions with
      | some ps => if ps.isEmpty then none else detectCurrentStrategy ps
      | none => none
    let viaContinuity : Option StrategyType :=
      match detected with
      | some StrategyType.WHEEL =>
          if sc.wheel_enabled then some StrategyType.WHEEL else none
      | some StrategyType.IRON_CONDOR =>
          if sc.iron_condor_enabled then some StrategyType.IRON_CONDOR else none
      | _ => none
    match viaContinuity with
    | some t => some t
    | none => regimeSelect sc volatility trend

/-! ## Concrete sample data for evaluations -/

/-- A long put leg at strike 435 bought for 1.00, now worth 0.10. -/
def sampleLongPut : Position where
  symbol := "SPY"
  position_type := "option"
  quantity := 1
  avg_cost := 1
  market_value := 1/10
  strike := some 435
  expiration := some 30
  right := some "P"

/-- A short put leg at strike 440 sold for 2.50, now worth 0.10. -/
def sampleShortPut : Position where
  symbol := "SPY"
  position_type := "option"
  quantity := -1
  avg_cost := -(5/2)
  market_value := -(1/10)
  strike := some 440
  expiration := some 30
  right := some "P"

/-- A short call leg at strike 460 sold for 2.50, now worth 0.10. -/
def sampleShortCall : Position where
  symbol := "SPY"
  position_type := "option"
  quantity := -1
  avg_cost := -(5/2)
  market_value := -(1/10)
  strike := some 460
  expiration := some 30
  right := some "C"

/-- A long call leg at strike 465 bought for 1.00, now worth 0.10. -/
def sampleLongCall : Position where
  symbol := "SPY"
  position_type := "option"
  quantity := 1
  avg_cost := 1
  market_value := 1/10
  strike := some 465
  expiration := some 30
  right := some "C"

/-- A reconstructed iron condor group over the four sample legs, at about
86 percent of its collected credit. -/
def sampleICGroup : IronCondorGroup where
  expiration := 30
  long_put := sampleLongPut
  short_put := sampleShortPut
  short_call := sampleShortCall
  long_call := sampleLongCall

/-- A long put position (positive quantity) bought for 5.00, now worth 1.00,
so at 80 percent of its entry value. -/
def sampleProfitLongPut : Position where
  symbol := "SPY"
  position_type := "option"
  quantity := 2
  avg_cost := 5
  market_value := 1
  strike := some 440
  expiration := some 10
  right := some "P"

/-- A short put at the LOWER strike 435 — the inverted arrangement. -/
def invertedShortPut : Position where
  symbol := "SPY"
  position_type := "option"
  quantity := -1
  avg_cost := -(5/2)
  market_value := -(1/10)
  strike := some 435
  expiration := some 30
  right := some "P"

/-- A long put at the HIGHER strike 440 — the inverted arrangement. -/
def invertedLongPut : Position where
  symbol := "SPY"
  position_type := "option"
  quantity := 1
  avg_cost := 1
  market_value := 1/10
  strike := some 440
  expiration := some 30
  right := some "P"

/-- A concrete 100-share equity holding. -/
def sampleStockPosition : Position where
  symbol := "SPY"
  position_type := "stock"
  quantity := 100
  avg_cost := 440
  market_value := 45000

/-! ## Theorems -/

/-- A failing margin check always carries the margin-exceeded violation kind. -/
lemma checkMarginUsage_failed_mem (cfg : RiskConfig) (r : TradeRecommendation)
    (positions : List Position) (account : AccountInfo)
    (h : (checkMarginUsage cfg r positions account).approved = false) :
    RiskViolation.MARGIN_EXCEEDED ∈ (checkMarginUsage cfg r positions account).violations := by
  unfold checkMarginUsage at h ⊢
  dsimp only at h ⊢
  split_ifs at h ⊢ <;> simp_all

/-- A failing concentration check always carries the concentration-exceeded
violation kind. -/
lemma checkConcentration_failed_mem (cfg : RiskConfig)
    (symCfgs : List (String × SymbolConfig)) (r : TradeRecommendation)
    (positions : List Position) (account : AccountInfo)
    (h : (checkConcentration cfg symCfgs r positions account).approved = false) :
    RiskViolation.CONCENTRATION_EXCEEDED ∈
      (checkConcentration cfg symCfgs r positions account).violations := by
  unfold checkConcentration at h ⊢
  dsimp only at h ⊢
  rcases hl : lookupSymbolConfig symCfgs r.symbol with _ | sc <;>
    simp only [hl] at h ⊢ <;> split_ifs at h ⊢ <;> simp_all

/-- Membership in a flatMap over a filtered list, given a kept element. -/
lemma mem_flatMap_of_filter {α β : Type} (f : α → List β) (p : α → Bool)
    {c : α} {l : List α} (hcl : c ∈ l) (hp : p c = true) {b : β}
    (hb : b ∈ f c) : b ∈ (l.filter p).flatMap f :=
  List.mem_flatMap.mpr ⟨c, List.mem_filter.mpr ⟨hcl, hp⟩, hb⟩

/-- C3: for every recommendation, position list, account snapshot and optional
VIX, `validate_trade` returns a result whose violations and reasons are the
concatenations over the failing sub-checks (the VIX check participating only
when a VIX is supplied), whose approved flag is true iff the accumulated
violations are empty; in particular a recommendation failing both the margin
check and the concentration check carries both violation kinds and all the
reasons of both checks in the one result. -/
theorem validateTrade_accumulates_failing_subchecks (cfg : RiskConfig)
    (symCfgs : List (String × SymbolConfig)) (r : TradeRecommendation)
    (positions : List Position) (account : AccountInfo)
    (currentVix : Option ℚ) :
    (validateTrade cfg symCfgs r positions account currentVix).violations =
      (((match currentVix with
         | some vix => [checkVixLimits cfg vix r]
         | none => []) ++
        [checkMarginUsage cfg r positions account,
         checkPositionLimits cfg symCfgs r positions,
         checkConcentration cfg symCfgs r positions account,
         checkBuyingPower r account]).filter
          (fun c => !c.approved)).flatMap RiskCheckResult.violations ∧
    (validateTrade cfg symCfgs r positions account currentVix).reasons =
      (((match currentVix with
         | some vix => [checkVixLimits cfg vix r]
         | none => []) ++
        [checkMarginUsage cfg r positions account,
         checkPositionLimits cfg symCfgs r positions,
         checkConcentration cfg symCfgs r positions account,
         checkBuyingPower r account]).filter
          (fun c => !c.approved)).flatMap RiskCheckResult.reasons ∧
    ((validateTrade cfg symCfgs r positions account currentVix).approved = true ↔
      (validateTrade cfg symCfgs r positions account currentVix).violations = []) ∧
    ((checkMarginUsage cfg r positions account).approved = false →
     (checkConcentration cfg symCfgs r positions account).approved = false →
     RiskViolation.MARGIN_EXCEEDED ∈
        (validateTrade cfg symCfgs r positions account currentVix).violations ∧
     RiskViolation.CONCENTRATION_EXCEEDED ∈
        (validateTrade cfg symCfgs r positions account currentVix).violations ∧
     (∀ m ∈ (checkMarginUsage cfg r positions account).reasons,
        m ∈ (validateTrade cfg symCfgs r positions account currentVix).reasons) ∧
     (∀ m ∈ (checkConcentration cfg symCfgs r positions account).reasons,
        m ∈ (validateTrade cfg symCfgs r positions account currentVix).reasons)) := by
  have main : ∀ ov : Option ℚ,
      (validateTrade cfg symCfgs r positions account ov).violations =
        (((match ov with
           | some vix => [checkVixLimits cfg vix r]
           | none => []) ++
          [checkMarginUsage cfg r positions account,
           checkPositionLimits cfg symCfgs r positions,
           checkConcentration cfg symCfgs r positions account,
           checkBuyingPower r account]).filter
            (fun c => !c.approved)).flatMap RiskCheckResult.violations ∧
      (validateTrade cfg symCfgs r positions account ov).reasons =
        (((match ov with
           | some vix => [checkVixLimits cfg vix r]
           | none => []) ++
          [checkMarginUsage cfg r positions account,
           checkPositionLimits cfg symCfgs r positions,
           checkConcentration cfg symCfgs r positions account,
           checkBuyingPower r account]).filter
            (fun c => !c.approved)).flatMap RiskCheckResult.reasons := by
    intro ov
    cases ov with
    | none =>
        cases h2 : (checkMarginUsage cfg r positions account).approved <;>
        cases h3 : (checkPositionLimits cfg symCfgs r positions).approved <;>
        cases h4 : (checkConcentration cfg symCfgs r positions account).approved <;>
        cases h5 : (checkBuyingPower r account).approved <;>
          simp [validateTrade, h2, h3, h4, h5]
    | some vix =>
        cases h1 : (checkVixLimits cfg vix r).approved <;>
        cases h2 : (checkMarginUsage cfg r positions account).approved <;>
        cases h3 : (checkPositionLimits cfg symCfgs r positions).approved <;>
        cases h4 : (checkConcentration cfg symCfgs r positions account).approved <;>
        cases h5 : (checkBuyingPower r account).approved <;>
          simp [validateTrade, h1, h2, h3, h4, h5]
  obtain ⟨hv, hr⟩ := main currentVix
  refine ⟨hv, hr, ?_, ?_⟩
  · have hAppr : (validateTrade cfg symCfgs r positions account currentVix).approved =
        (validateTrade cfg symCfgs r positions account currentVix).violations.isEmpty := rfl
    rw [hAppr, List.isEmpty_iff]
  · intro hm hc
    have hmm := checkMarginUsage_failed_mem cfg r positions account hm
    have hcm := checkConcentration_failed_mem cfg symCfgs r positions account hc
    refine ⟨?_, ?_, ?_, ?_⟩
    · rw [hv]
      refine mem_flatMap_of_filter _ _ ?_ (by simp [hm]) hmm
      cases currentVix <;> simp
    · rw [hv]
      refine mem_flatMap_of_filter _ _ ?_ (by simp [hc]) hcm
      cases currentVix <;> simp
    · intro m hmem
      rw [hr]
      refine mem_flatMap_of_filter _ _ ?_ (by simp [hm]) hmem
      cases currentVix <;> simp
    · intro m hmem
      rw [hr]
      refine mem_flatMap_of_filter _ _ ?_ (by simp [hc]) hmem
      cases currentVix <;> simp

/-- Witness for C3: a concrete trade failing both the margin check and the
concentration check carries both violation kinds in the single result. -/
theorem validateTrade_accumulates_witness :
    RiskViolation.MARGIN_EXCEEDED ∈
      (validateTrade {} []
        { action := Action.SELL_PUT, symbol := "SPY", quantity := 1,
          strategy_type := StrategyType.WHEEL }
        [{ symbol := "SPY", position_type := "stock", quantity := 1,
           avg_cost := 500, market_value := 500 }]
        { net_liquidation := 1000, buying_power := 0, margin_used := 900 }
        none).violations ∧
    RiskViolation.CONCENTRATION_EXCEEDED ∈
      (validateTrade {} []
        { action := Action.SELL_PUT, symbol := "SPY", quantity := 1,
          strategy_type := StrategyType.WHEEL }
        [{ symbol := "SPY", position_type := "stock", quantity := 1,
           avg_cost := 500, market_value := 500 }]
        { net_liquidation := 1000, buying_power := 0, margin_used := 900 }
        none).violations := by
  have h := validateTrade_accumulates_failing_subchecks {} []
    { action := Action.SELL_PUT, symbol := "SPY", quantity := 1,
      strategy_type := StrategyType.WHEEL }
    [{ symbol := "SPY", position_type := "stock", quantity := 1,
       avg_cost := 500, market_value := 500 }]
    { net_liquidation := 1000, buying_power := 0, margin_used := 900 }
    none
  have hm : (checkMarginUsage {}
      { action := Action.SELL_PUT, symbol := "SPY", quantity := 1,
        strategy_type := StrategyType.WHEEL }
      [{ symbol := "SPY", position_type := "stock", quantity := 1,
         avg_cost := 500, market_value := 500 }]
      { net_liquidation := 1000, buying_power := 0, margin_used := 900 }).approved = false := by
    norm_num [checkMarginUsage, estimateMarginRequirement]
  have hc : (checkConcentration {} []
      { action := Action.SELL_PUT, symbol := "SPY", quantity := 1,
        strategy_type := StrategyType.WHEEL }
      [{ symbol := "SPY", position_type := "stock", quantity := 1,
         avg_cost := 500, market_value := 500 }]
      { net_liquidation := 1000, buying_power := 0, margin_used := 900 }).approved = false := by
    norm_num [checkConcentration, estimatePositionValue, symbolExposure,
      lookupSymbolConfig]
  exact ⟨(h.2.2.2 hm hc).1, (h.2.2.2 hm hc).2.1⟩

/-- C1 (code bug): when only the size-reduction VIX threshold is exceeded,
`_check_vix_limits` itself computes `adjusted_quantity = max 1 ⌊quantity ×
factor⌋` while staying approved, but `validate_trade` copies the adjustment
only inside its not-approved branch, so the returned result is approved with
`adjusted_quantity = none` — the reduction the claim (and the spec) promise
is silently dropped. -/
theorem validateTrade_drops_vix_adjustment :
    (checkVixLimits
        { max_vix_for_new_positions := none,
          reduce_size_when_vix_above := some 30,
          vix_size_reduction_factor := 1/2 } 35
        { action := Action.SELL_PUT, symbol := "SPY", quantity := 2,
          strategy_type := StrategyType.WHEEL, strike := some 1 }).approved = true ∧
    (checkVixLimits
        { max_vix_for_new_positions := none,
          reduce_size_when_vix_above := some 30,
          vix_size_reduction_factor := 1/2 } 35
        { action := Action.SELL_PUT, symbol := "SPY", quantity := 2,
          strategy_type := StrategyType.WHEEL, strike := some 1 }).adjusted_quantity =
      some (max 1 (pyInt ((2 : ℚ) * (1/2)))) ∧
    max 1 (pyInt ((2 : ℚ) * (1/2))) = 1 ∧
    (validateTrade
        { max_vix_for_new_positions := none,
          reduce_size_when_vix_above := some 30,
          vix_size_reduction_factor := 1/2 } []
        { action := Action.SELL_PUT, symbol := "SPY", quantity := 2,
          strategy_type := StrategyType.WHEEL, strike := some 1 } []
        { net_liquidation := 100000, buying_power := 1000000, margin_used := 0 }
        (some 35)).approved = true ∧
    (validateTrade
        { max_vix_for_new_positions := none,
          reduce_size_when_vix_above := some 30,
          vix_size_reduction_factor := 1/2 } []
        { action := Action.SELL_PUT, symbol := "SPY", quantity := 2,
          strategy_type := StrategyType.WHEEL, strike := some 1 } []
        { net_liquidation := 100000, buying_power := 1000000, margin_used := 0 }
        (some 35)).adjusted_quantity = none := by
  refine ⟨?_, ?_, ?_, ?_, ?_⟩ <;>
    norm_num [validateTrade, checkVixLimits, checkMarginUsage,
      checkPositionLimits, checkConcentration, checkBuyingPower,
      estimateMarginRequirement, estimateBuyingPowerRequirement,
      estimatePositionValue, symbolExposure, lookupSymbolConfig, pyInt]

/-- C8: for every symbol configuration with `enabled = false`, the `analyze`
methods of both the wheel strategy and the iron condor strategy return the
empty recommendation list, for every stock price, option chain, position
list and account snapshot. -/
theorem analyze_disabled_returns_empty (cfg : SymbolConfig) (ic : ICParams)
    (today : Int) (stockPrice : ℚ) (chain : List OptionChainData)
    (positions : List Position) (account : AccountInfo)
    (h : cfg.enabled = false) :
    wheelAnalyze cfg today stockPrice chain positions account = [] ∧
    icAnalyze cfg ic today stockPrice chain positions account = [] := by
  constructor <;> simp [wheelAnalyze, icAnalyze, h]

/-- Witness for C8 at a concrete disabled configuration. -/
theorem analyze_disabled_returns_empty_witness :
    ({ symbol := "SPY", enabled := false } : SymbolConfig).enabled = false ∧
    wheelAnalyze { symbol := "SPY", enabled := false } 0 450 [] []
      { net_liquidation := 100000, buying_power := 50000, margin_used := 0 } = [] ∧
    icAnalyze { symbol := "SPY", enabled := false } defaultICParams 0 450 [] []
      { net_liquidation := 100000, buying_power := 50000, margin_used := 0 } = [] := by
  refine ⟨rfl, ?_, ?_⟩
  · exact (analyze_disabled_returns_empty { symbol := "SPY", enabled := false }
      defaultICParams 0 450 [] []
      { net_liquidation := 100000, buying_power := 50000, margin_used := 0 } rfl).1
  · exact (analyze_disabled_returns_empty { symbol := "SPY", enabled := false }
      defaultICParams 0 450 [] []
      { net_liquidation := 100000, buying_power := 50000, margin_used := 0 } rfl).2

/-- The Python `min` fold keeps the first element attaining the minimal key:
the result either is the start value `b` and no list element beats it, or it
is a list element strictly better than `b`, strictly better than everything
before it and at least as good as everything after it. -/
lemma foldl_min_first {α : Type} (key : α → ℚ) :
    ∀ (xs : List α) (b r : α),
      xs.foldl (fun acc o => if key o < key acc then o else acc) b = r →
      (r = b ∧ ∀ x ∈ xs, key b ≤ key x) ∨
      (∃ l₁ l₂, xs = l₁ ++ r :: l₂ ∧ key r < key b ∧
        (∀ x ∈ l₁, key r < key x) ∧ (∀ x ∈ l₂, key r ≤ key x))
  | [], b, r, h => by
      left
      refine ⟨(by simpa using h.symm), by simp⟩
  | x :: xs, b, r, h => by
      rw [List.foldl_cons] at h
      by_cases hx : key x < key b
      · rw [if_pos hx] at h
        rcases foldl_min_first key xs x r h with ⟨hrb, hall⟩ | ⟨l₁, l₂, hxs, hlt, h1, h2⟩
        · right
          refine ⟨[], xs, by simp [hrb], by rw [hrb]; exact hx, by simp, ?_⟩
          intro y hy
          rw [hrb]
          exact hall y hy
        · right
          refine ⟨x :: l₁, l₂, by rw [hxs, List.cons_append], lt_trans hlt hx, ?_, h2⟩
          intro y hy
          rcases List.mem_cons.mp hy with hy | hy
          · exact hy ▸ hlt
          · exact h1 y hy
      · rw [if_neg hx] at h
        rcases foldl_min_first key xs b r h with ⟨hrb, hall⟩ | ⟨l₁, l₂, hxs, hlt, h1, h2⟩
        · left
          refine ⟨hrb, ?_⟩
          intro y hy
          rcases List.mem_cons.mp hy with hy | hy
          · exact hy ▸ le_of_not_lt hx
          · exact hall y hy
        · right
          refine ⟨x :: l₁, l₂, by rw [hxs, List.cons_append], hlt, ?_, h2⟩
          intro y hy
          rcases List.mem_cons.mp hy with hy | hy
          · exact hy ▸ lt_of_lt_of_le hlt (le_of_not_lt hx)
          · exact h1 y hy

/-- `selectBest` returns `none` exactly on the empty candidate list. -/
lemma selectBest_eq_none_iff {α : Type} (key : α → ℚ) (l : List α) :
    selectBest key l = none ↔ l = [] := by
  cases l <;> simp [selectBest]

/-- A value returned by `selectBest` is the first candidate attaining the
minimal key: strictly smaller key than every earlier candidate, no larger
key than every later one. -/
lemma selectBest_first_min {α : Type} (key : α → ℚ) (l : List α) (o : α)
    (h : selectBest key l = some o) :
    ∃ l₁ l₂, l = l₁ ++ o :: l₂ ∧ (∀ x ∈ l₁, key o < key x) ∧
      (∀ x ∈ l₂, key o ≤ key x) := by
  cases l with
  | nil => simp [selectBest] at h
  | cons x xs =>
      have hf : xs.foldl (fun acc o => if key o < key acc then o else acc) x = o := by
        simpa [selectBest] using h
      rcases foldl_min_first key xs x o hf with ⟨hrb, hall⟩ | ⟨l₁, l₂, hxs, hlt, h1, h2⟩
      · refine ⟨[], xs, by simp [hrb], by simp, ?_⟩
        intro y hy
        rw [hrb]
        exact hall y hy
      · refine ⟨x :: l₁, l₂, by rw [hxs, List.cons_append], ?_, h2⟩
        intro y hy
        rcases List.mem_cons.mp hy with hy | hy
        · exact hy ▸ hlt
        · exact h1 y hy

/-- C4: `_find_option_by_delta` considers exactly the chain entries with the
requested right, DTE inside the inclusive window, a non-missing delta and
strictly positive bid and ask; it returns `none` iff no candidate survives
the filter, and otherwise the first candidate (in chain order) minimizing
the distance of its delta to the signed target; in particular, for puts with
target 0.30 over candidate deltas −0.20, −0.30, −0.20 it selects the −0.30
candidate. -/
theorem findOptionByDelta_spec (chain : List OptionChainData) (right : String)
    (targetDelta stockPrice : ℚ) (today dteMin dteMax : Int) :
    (∀ o, o ∈ deltaCandidates chain right today dteMin dteMax ↔
      (o ∈ chain ∧ o.right = right ∧ dteMin ≤ optionDte today o ∧
        optionDte today o ≤ dteMax ∧ o.delta ≠ none ∧ 0 < o.bid ∧ 0 < o.ask)) ∧
    (findOptionByDelta chain right targetDelta stockPrice today dteMin dteMax = none ↔
      deltaCandidates chain right today dteMin dteMax = []) ∧
    (∀ o, findOptionByDelta chain right targetDelta stockPrice today dteMin dteMax =
        some o →
      ∃ l₁ l₂, deltaCandidates chain right today dteMin dteMax = l₁ ++ o :: l₂ ∧
        (∀ x ∈ l₁, deltaKey (signedTarget right targetDelta) o <
          deltaKey (signedTarget right targetDelta) x) ∧
        (∀ x ∈ l₂, deltaKey (signedTarget right targetDelta) o ≤
          deltaKey (signedTarget right targetDelta) x)) ∧
    findOptionByDelta
      [{ symbol := "SPY", strike := 440, expiration := 35, right := "P",
         bid := 1, ask := 1, delta := some (-(1/5)) },
       { symbol := "SPY", strike := 445, expiration := 35, right := "P",
         bid := 1, ask := 1, delta := some (-(3/10)) },
       { symbol := "SPY", strike := 450, expiration := 35, right := "P",
         bid := 1, ask := 1, delta := some (-(1/5)) }] "P" (3/10) 450 0 30 45 =
      some { symbol := "SPY", strike := 445, expiration := 35, right := "P",
             bid := 1, ask := 1, delta := some (-(3/10)) } := by
  refine ⟨?_, ?_, ?_, ?_⟩
  · intro o
    simp [deltaCandidates, and_assoc]
  · exact selectBest_eq_none_iff _ _
  · intro o h
    exact selectBest_first_min _ _ o h
  · have hfil : deltaCandidates
        [{ symbol := "SPY", strike := 440, expiration := 35, right := "P",
           bid := 1, ask := 1, delta := some (-(1/5)) },
         { symbol := "SPY", strike := 445, expiration := 35, right := "P",
           bid := 1, ask := 1, delta := some (-(3/10)) },
         { symbol := "SPY", strike := 450, expiration := 35, right := "P",
           bid := 1, ask := 1, delta := some (-(1/5)) }] "P" 0 30 45 =
        [{ symbol := "SPY", strike := 440, expiration := 35, right := "P",
           bid := 1, ask := 1, delta := some (-(1/5)) },
         { symbol := "SPY", strike := 445, expiration := 35, right := "P",
           bid := 1, ask := 1, delta := some (-(3/10)) },
         { symbol := "SPY", strike := 450, expiration := 35, right := "P",
           bid := 1, ask := 1, delta := some (-(1/5)) }] := by
      norm_num [deltaCandidates, optionDte, List.filter_cons]
      simp
    have e0 : |(3/10 : ℚ)| = 3/10 := abs_of_nonneg (by norm_num)
    have e1 : |(-(1/5) : ℚ) + 3/10| = 1/10 := by
      have h : (-(1/5) : ℚ) + 3/10 = 1/10 := by norm_num
      rw [h]
      exact abs_of_nonneg (by norm_num)
    have e2 : |(-(3/10) : ℚ) + 3/10| = 0 := by
      have h : (-(3/10) : ℚ) + 3/10 = 0 := by norm_num
      rw [h]
      exact abs_zero
    simp only [findOptionByDelta]
    rw [hfil]
    simp only [selectBest, List.foldl_cons, List.foldl_nil, deltaKey,
      signedTarget, Option.getD_some, reduceIte]
    rw [e0]
    simp only [sub_neg_eq_add, e1, e2]
    norm_num

/-- Witness for C4: applying the characterization at the concrete
three-candidate put chain. -/
theorem findOptionByDelta_spec_witness :
    ∃ l₁ l₂,
      deltaCandidates
        [{ symbol := "SPY", strike := 440, expiration := 35, right := "P",
           bid := 1, ask := 1, delta := some (-(1/5)) },
         { symbol := "SPY", strike := 445, expiration := 35, right := "P",
           bid := 1, ask := 1, delta := some (-(3/10)) },
         { symbol := "SPY", strike := 450, expiration := 35, right := "P",
           bid := 1, ask := 1, delta := some (-(1/5)) }] "P" 0 30 45 =
        l₁ ++ { symbol := "SPY", strike := 445, expiration := 35, right := "P",
                bid := 1, ask := 1, delta := some (-(3/10)) } :: l₂ ∧
      (∀ x ∈ l₁, deltaKey (signedTarget "P" (3/10))
          { symbol := "SPY", strike := 445, expiration := 35, right := "P",
            bid := 1, ask := 1, delta := some (-(3/10)) } <
        deltaKey (signedTarget "P" (3/10)) x) ∧
      (∀ x ∈ l₂, deltaKey (signedTarget "P" (3/10))
          { symbol := "SPY", strike := 445, expiration := 35, right := "P",
            bid := 1, ask := 1, delta := some (-(3/10)) } ≤
        deltaKey (signedTarget "P" (3/10)) x) := by
  have h := findOptionByDelta_spec
    [{ symbol := "SPY", strike := 440, expiration := 35, right := "P",
       bid := 1, ask := 1, delta := some (-(1/5)) },
     { symbol := "SPY", strike := 445, expiration := 35, right := "P",
       bid := 1, ask := 1, delta := some (-(3/10)) },
     { symbol := "SPY", strike := 450, expiration := 35, right := "P",
       bid := 1, ask := 1, delta := some (-(1/5)) }] "P" (3/10) 450 0 30 45
  exact h.2.2.1 _ h.2.2.2

/-- C5: for a put or call position with an expiration and positive entry
credit, a profit percent at or above `roll_when_pnl_percent` always yields a
close recommendation carrying the position (never a roll, even when DTE is
at or below `roll_when_dte`); a roll is produced only when the profit
condition fails, DTE is at or below the threshold and a replacement leg is
found; and when the profit condition fails, DTE is at or below the
threshold and no replacement is found, nothing is emitted for the leg. -/
theorem wheel_profit_close_precedence (cfg : SymbolConfig) (today : Int)
    (pos : Position) (stockPrice : ℚ) (chain : List OptionChainData)
    (e : Int) (hexp : pos.expiration = some e) (hcred : 0 < |pos.avg_cost|) :
    ((|pos.avg_cost| - |pos.market_value|) / |pos.avg_cost| * 100 ≥
        cfg.roll_when_pnl_percent →
      checkPutPosition cfg today pos stockPrice chain =
        some { action := Action.CLOSE_PUT, symbol := cfg.symbol,
               quantity := |pos.quantity|, strategy_type := StrategyType.WHEEL,
               existing_position := some pos,
               reasoning := Reason.closePutForProfit
                 ((|pos.avg_cost| - |pos.market_value|) / |pos.avg_cost| * 100)
                 cfg.roll_when_pnl_percent } ∧
      checkCallPosition cfg today pos stockPrice chain =
        some { action := Action.CLOSE_CALL, symbol := cfg.symbol,
               quantity := |pos.quantity|, strategy_type := StrategyType.WHEEL,
               existing_position := some pos,
               reasoning := Reason.closeCallForProfit
                 ((|pos.avg_cost| - |pos.market_value|) / |pos.avg_cost| * 100)
                 cfg.roll_when_pnl_percent }) ∧
    (∀ r, checkPutPosition cfg today pos stockPrice chain = some r →
      r.action = Action.ROLL_PUT →
      (|pos.avg_cost| - |pos.market_value|) / |pos.avg_cost| * 100 <
          cfg.roll_when_pnl_percent ∧
        e - today ≤ cfg.roll_when_dte ∧
        ∃ o, findOptionByDelta chain "P" cfg.target_delta stockPrice today
          cfg.dte_min cfg.dte_max = some o) ∧
    (∀ r, checkCallPosition cfg today pos stockPrice chain = some r →
      r.action = Action.ROLL_CALL →
      (|pos.avg_cost| - |pos.market_value|) / |pos.avg_cost| * 100 <
          cfg.roll_when_pnl_percent ∧
        e - today ≤ cfg.roll_when_dte ∧
        ∃ o, findOptionByDelta chain "C" cfg.target_delta stockPrice today
          cfg.dte_min cfg.dte_max = some o) ∧
    ((|pos.avg_cost| - |pos.market_value|) / |pos.avg_cost| * 100 <
        cfg.roll_when_pnl_percent →
      e - today ≤ cfg.roll_when_dte →
      (findOptionByDelta chain "P" cfg.target_delta stockPrice today
          cfg.dte_min cfg.dte_max = none →
        checkPutPosition cfg today pos stockPrice chain = none) ∧
      (findOptionByDelta chain "C" cfg.target_delta stockPrice today
          cfg.dte_min cfg.dte_max = none →
        checkCallPosition cfg today pos stockPrice chain = none)) := by
  have hput : checkPutPosition cfg today pos stockPrice chain =
      (if (|pos.avg_cost| - |pos.market_value|) / |pos.avg_cost| * 100 ≥
          cfg.roll_when_pnl_percent then
        some { action := Action.CLOSE_PUT, symbol := cfg.symbol,
               quantity := |pos.quantity|, strategy_type := StrategyType.WHEEL,
               existing_position := some pos,
               reasoning := Reason.closePutForProfit
                 ((|pos.avg_cost| - |pos.market_value|) / |pos.avg_cost| * 100)
                 cfg.roll_when_pnl_percent }
      else if e - today ≤ cfg.roll_when_dte then
        match findOptionByDelta chain "P" cfg.target_delta stockPrice today
            cfg.dte_min cfg.dte_max with
        | some newOption =>
            some { action := Action.ROLL_PUT, symbol := cfg.symbol,
                   quantity := |pos.quantity|,
                   strategy_type := StrategyType.WHEEL,
                   existing_position := some pos,
                   new_strike := some newOption.strike,
                   new_expiration := some newOption.expiration,
                   premium := some ((newOption.bid + newOption.ask) / 2),
                   delta := newOption.delta,
                   reasoning := Reason.rollPut (e - today) cfg.roll_when_dte }
        | none => none
      else none) := by
    unfold checkPutPosition
    rw [hexp]
    dsimp only
    rw [if_pos hcred]
  have hcall : checkCallPosition cfg today pos stockPrice chain =
      (if (|pos.avg_cost| - |pos.market_value|) / |pos.avg_cost| * 100 ≥
          cfg.roll_when_pnl_percent then
        some { action := Action.CLOSE_CALL, symbol := cfg.symbol,
               quantity := |pos.quantity|, strategy_type := StrategyType.WHEEL,
               existing_position := some pos,
               reasoning := Reason.closeCallForProfit
                 ((|pos.avg_cost| - |pos.market_value|) / |pos.avg_cost| * 100)
                 cfg.roll_when_pnl_percent }
      else if e - today ≤ cfg.roll_when_dte then
        match findOptionByDelta chain "C" cfg.target_delta stockPrice today
            cfg.dte_min cfg.dte_max with
        | some newOption =>
            some { action := Action.ROLL_CALL, symbol := cfg.symbol,
                   quantity := |pos.quantity|,
                   strategy_type := StrategyType.WHEEL,
                   existing_position := some pos,
                   new_strike := some newOption.strike,
                   new_expiration := some newOption.expiration,
                   premium := some ((newOption.bid + newOption.ask) / 2),
                   delta := newOption.delta,
                   reasoning := Reason.rollCall (e - today) cfg.roll_when_dte }
        | none => none
      else none) := by
    unfold checkCallPosition
    rw [hexp]
    dsimp only
    rw [if_pos hcred]
  refine ⟨?_, ?_, ?_, ?_⟩
  · intro hp
    rw [hput, hcall, if_pos hp, if_pos hp]
    exact ⟨rfl, rfl⟩
  · intro r hr ha
    rw [hput] at hr
    split_ifs at hr with h1 h2
    · cases hr
      simp at ha
    · rcases hfind : findOptionByDelta chain "P" cfg.target_delta stockPrice
          today cfg.dte_min cfg.dte_max with _ | o <;> rw [hfind] at hr
      · cases hr
      · exact ⟨lt_of_not_ge h1, h2, o, rfl⟩
  · intro r hr ha
    rw [hcall] at hr
    split_ifs at hr with h1 h2
    · cases hr
      simp at ha
    · rcases hfind : findOptionByDelta chain "C" cfg.target_delta stockPrice
          today cfg.dte_min cfg.dte_max with _ | o <;> rw [hfind] at hr
      · cases hr
      · exact ⟨lt_of_not_ge h1, h2, o, rfl⟩
  · intro h1 h2
    constructor
    · intro hnone
      rw [hput, if_neg (not_le.mpr h1), if_pos h2, hnone]
    · intro hnone
      rw [hcall, if_neg (not_le.mpr h1), if_pos h2, hnone]

/-- Witness for C5: a concrete short put at 60% profit with DTE below the
roll threshold is closed, not rolled. -/
theorem wheel_profit_close_precedence_witness :
    (|(-(5 : ℚ))| - |(-(2 : ℚ))|) / |(-(5 : ℚ))| * 100 ≥
      ({ symbol := "SPY" } : SymbolConfig).roll_when_pnl_percent ∧
    checkPutPosition { symbol := "SPY" } 0
      { symbol := "SPY", position_type := "option", quantity := -1,
        avg_cost := -5, market_value := -2, strike := some 440,
        expiration := some 10, right := some "P" } 450 [] =
      some { action := Action.CLOSE_PUT, symbol := "SPY", quantity := 1,
             strategy_type := StrategyType.WHEEL,
             existing_position := some
               { symbol := "SPY", position_type := "option", quantity := -1,
                 avg_cost := -5, market_value := -2, strike := some 440,
                 expiration := some 10, right := some "P" },
             reasoning := Reason.closePutForProfit
               ((|(-(5 : ℚ))| - |(-(2 : ℚ))|) / |(-(5 : ℚ))| * 100) 50 } := by
  have hprofit : (|(-(5 : ℚ))| - |(-(2 : ℚ))|) / |(-(5 : ℚ))| * 100 ≥
      ({ symbol := "SPY" } : SymbolConfig).roll_when_pnl_percent := by
    norm_num
  have h := wheel_profit_close_precedence { symbol := "SPY" } 0
    { symbol := "SPY", position_type := "option", quantity := -1,
      avg_cost := -5, market_value := -2, strike := some 440,
      expiration := some 10, right := some "P" } 450 [] 10 rfl (by norm_num)
  exact ⟨hprofit, (h.1 hprofit).1⟩

/-- C6: for every reconstructed iron condor the management check emits at
most one recommendation (it returns an `Option`), selected by the first
satisfied condition in the fixed order profit-close, loss-close, roll,
adjust, nothing — with profit percent `(entryCredit − currentValue) /
entryCredit × 100`, defined as 0 whenever the entry credit is not
positive. -/
theorem ic_management_priority (cfg : SymbolConfig) (today : Int)
    (g : IronCondorGroup) (stockPrice : ℚ) (chain : List OptionChainData) :
    (icProfitPct g ≥ 50 →
      ∃ r, checkIronCondorPosition cfg defaultICParams today g stockPrice chain =
          some r ∧ r.action = Action.CLOSE_IRON_CONDOR ∧
        r.reasoning = Reason.closeIronCondorProfit (icProfitPct g) 50) ∧
    (icProfitPct g < 50 → icProfitPct g < 0 → |icProfitPct g| ≥ 200 →
      ∃ r, checkIronCondorPosition cfg defaultICParams today g stockPrice chain =
          some r ∧ r.action = Action.CLOSE_IRON_CONDOR ∧
        r.reasoning = Reason.closeIronCondorLoss (icProfitPct g) 200) ∧
    (icProfitPct g < 50 → ¬(icProfitPct g < 0 ∧ |icProfitPct g| ≥ 200) →
      g.expiration - today ≤ cfg.roll_when_dte →
      ∃ r, checkIronCondorPosition cfg defaultICParams today g stockPrice chain =
          some r ∧ r.action = Action.ROLL_IRON_CONDOR) ∧
    (icProfitPct g < 50 → ¬(icProfitPct g < 0 ∧ |icProfitPct g| ≥ 200) →
      cfg.roll_when_dte < g.expiration - today →
      (|stockPrice - strikeD g.short_put| / stockPrice < 1/10 ∨
        |stockPrice - strikeD g.short_call| / stockPrice < 1/10) →
      ∃ r, checkIronCondorPosition cfg defaultICParams today g stockPrice chain =
          some r ∧ r.action = Action.ADJUST_IRON_CONDOR) ∧
    (icProfitPct g < 50 → ¬(icProfitPct g < 0 ∧ |icProfitPct g| ≥ 200) →
      cfg.roll_when_dte < g.expiration - today →
      ¬(|stockPrice - strikeD g.short_put| / stockPrice < 1/10 ∨
        |stockPrice - strikeD g.short_call| / stockPrice < 1/10) →
      checkIronCondorPosition cfg defaultICParams today g stockPrice chain = none) ∧
    (icEntryCredit g ≤ 0 → icProfitPct g = 0) ∧
    (0 < icEntryCredit g →
      icProfitPct g = (icEntryCredit g - icCurrentValue g) / icEntryCredit g * 100) := by
  have hlossFalse : ∀ (h2 : ¬(icProfitPct g < 0 ∧ |icProfitPct g| ≥ 200)),
      ¬((if icProfitPct g < 0 then |icProfitPct g| else 0) ≥ (200 : ℚ)) := by
    intro h2
    split_ifs with hneg
    · intro hge
      exact h2 ⟨hneg, hge⟩
    · norm_num [defaultICParams]
  unfold checkIronCondorPosition
  dsimp only
  simp only [show defaultICParams.profit_target_percent = (50 : ℚ) from rfl,
    show defaultICParams.max_loss_percent = (200 : ℚ) from rfl,
    show defaultICParams.adjustment_threshold = (1/10 : ℚ) from rfl]
  refine ⟨?_, ?_, ?_, ?_, ?_, ?_, ?_⟩
  · intro h
    rw [if_pos h]
    exact ⟨_, rfl, rfl, rfl⟩
  · intro h1 h2 h3
    rw [if_neg (not_le.mpr h1)]
    have hc2 : (if icProfitPct g < 0 then |icProfitPct g| else 0) ≥ (200 : ℚ) := by
      rw [if_pos h2]
      exact h3
    rw [if_pos hc2]
    exact ⟨_, rfl, rfl, rfl⟩
  · intro h1 h2 h3
    rw [if_neg (not_le.mpr h1), if_neg (hlossFalse h2), if_pos h3]
    exact ⟨_, rfl, rfl⟩
  · intro h1 h2 h3 h4
    rw [if_neg (not_le.mpr h1), if_neg (hlossFalse h2),
      if_neg (not_le.mpr h3), if_pos h4]
    exact ⟨_, rfl, rfl⟩
  · intro h1 h2 h3 h4
    rw [if_neg (not_le.mpr h1), if_neg (hlossFalse h2),
      if_neg (not_le.mpr h3), if_neg h4]
  · intro h
    unfold icProfitPct
    rw [if_neg (not_lt.mpr h)]
  · intro h
    unfold icProfitPct
    rw [if_pos h]

/-- Witness for C6: the concrete sample iron condor at 86 percent profit is
closed for profit. -/
theorem ic_management_priority_witness :
    icProfitPct sampleICGroup ≥ 50 ∧
    ∃ r, checkIronCondorPosition { symbol := "SPY" } defaultICParams 0
        sampleICGroup 450 [] = some r ∧
      r.action = Action.CLOSE_IRON_CONDOR := by
  have hp : icProfitPct sampleICGroup ≥ 50 := by
    norm_num [icProfitPct, icEntryCredit, icCurrentValue, sampleICGroup,
      sampleLongPut, sampleShortPut, sampleShortCall, sampleLongCall,
      abs_of_nonneg, abs_of_nonpos]
  obtain ⟨r, hr, ha, _⟩ :=
    (ic_management_priority { symbol := "SPY" } 0 sampleICGroup 450 []).1 hp
  exact ⟨hp, r, hr, ha⟩

/-- C7: for a configured symbol with a non-empty position list the
continuity rule runs before any regime classification: an equity holding, or
exactly one option leg, makes the wheel strategy controlling; exactly four
option legs split two puts / two calls (and no equity) makes the iron condor
controlling; and a detected controlling strategy that is enabled is returned
for every supplied volatility and trend. -/
theorem selector_continuity (sc : StrategyConfig)
    (symCfgs : List (String × SymbolConfig)) (symbol : String)
    (stockPrice : ℚ) (volatility : Option ℚ) (trend : Option String)
    (ps : List Position) (c : SymbolConfig)
    (hcfg : lookupSymbolConfig symCfgs symbol = some c) (hne : ps ≠ []) :
    ((∃ p ∈ ps, p.position_type = "stock") →
      detectCurrentStrategy ps = some StrategyType.WHEEL) ∧
    ((¬∃ p ∈ ps, p.position_type = "stock") →
      (optionPositions ps).length = 1 →
      detectCurrentStrategy ps = some StrategyType.WHEEL) ∧
    ((¬∃ p ∈ ps, p.position_type = "stock") →
      (optionPositions ps).length = 4 →
      ((optionPositions ps).filter (fun p => decide (p.right = some "P"))).length = 2 →
      ((optionPositions ps).filter (fun p => decide (p.right = some "C"))).length = 2 →
      detectCurrentStrategy ps = some StrategyType.IRON_CONDOR) ∧
    (detectCurrentStrategy ps = some StrategyType.WHEEL →
      sc.wheel_enabled = true →
      selectBestStrategy sc symCfgs symbol stockPrice volatility trend
        (some ps) = some StrategyType.WHEEL) ∧
    (detectCurrentStrategy ps = some StrategyType.IRON_CONDOR →
      sc.iron_condor_enabled = true →
      selectBestStrategy sc symCfgs symbol stockPrice volatility trend
        (some ps) = some StrategyType.IRON_CONDOR) := by
  have hie : ps.isEmpty = false := by
    cases ps with
    | nil => exact absurd rfl hne
    | cons a l => rfl
  have hanyIff : (ps.any (fun p => decide (p.position_type = "stock")) = true) ↔
      (∃ p ∈ ps, p.position_type = "stock") := by
    simp [List.any_eq_true]
  refine ⟨?_, ?_, ?_, ?_, ?_⟩
  · intro h
    unfold detectCurrentStrategy
    rw [if_pos (hanyIff.mpr h)]
  · intro h h1
    unfold detectCurrentStrategy
    rw [if_neg (fun hc => h (hanyIff.mp hc))]
    dsimp only
    rw [if_pos h1]
  · intro h h4 hp2 hc2
    unfold detectCurrentStrategy
    rw [if_neg (fun hc => h (hanyIff.mp hc))]
    dsimp only
    rw [if_neg (by rw [h4]; norm_num), if_pos h4, if_pos ⟨hp2, hc2⟩]
  · intro hdet hw
    simp [selectBestStrategy, hcfg, hie, hdet, hw]
  · intro hdet hic
    simp [selectBestStrategy, hcfg, hie, hdet, hic]

/-- Witness for C7: a symbol holding 100 shares keeps the wheel strategy
even in the neutral low-volatility regime that would otherwise prefer the
iron condor. -/
theorem selector_continuity_witness :
    detectCurrentStrategy [sampleStockPosition] = some StrategyType.WHEEL ∧
    selectBestStrategy
      { wheel_enabled := true, iron_condor_enabled := true }
      [("SPY", { symbol := "SPY" })] "SPY" 450 (some (9/50))
      (some "neutral") (some [sampleStockPosition]) =
      some StrategyType.WHEEL := by
  have h := selector_continuity
    { wheel_enabled := true, iron_condor_enabled := true }
    [("SPY", { symbol := "SPY" })] "SPY" 450 (some (9/50)) (some "neutral")
    [sampleStockPosition] { symbol := "SPY" } rfl (by simp)
  have hdet : detectCurrentStrategy [sampleStockPosition] =
      some StrategyType.WHEEL :=
    h.1 ⟨sampleStockPosition, by simp, rfl⟩
  exact ⟨hdet, h.2.2.2.1 hdet rfl⟩

/-- C10: `WheelStrategy.analyze` applies its close/roll evaluation to every
option position of the symbol irrespective of the sign of its quantity; in
particular a long put or long call with an expiration, positive entry credit
and profit percent at or above the threshold contributes a close
recommendation with quantity `|position.quantity|`. -/
theorem wheel_analyze_checks_all_option_positions (cfg : SymbolConfig)
    (today : Int) (stockPrice : ℚ) (chain : List OptionChainData)
    (positions : List Position) (account : AccountInfo)
    (henabled : cfg.enabled = true) :
    (∀ p ∈ positions, p.position_type = "option" → p.right = some "P" →
      ∀ r, checkPutPosition cfg today p stockPrice chain = some r →
        r ∈ wheelAnalyze cfg today stockPrice chain positions account) ∧
    (∀ p ∈ positions, p.position_type = "option" → p.right = some "C" →
      ∀ r, checkCallPosition cfg today p stockPrice chain = some r →
        r ∈ wheelAnalyze cfg today stockPrice chain positions account) ∧
    (∀ p ∈ positions, p.position_type = "option" → p.right = some "P" →
      0 < p.quantity → ∀ e, p.expiration = some e → 0 < |p.avg_cost| →
      (|p.avg_cost| - |p.market_value|) / |p.avg_cost| * 100 ≥
        cfg.roll_when_pnl_percent →
      ∃ r ∈ wheelAnalyze cfg today stockPrice chain positions account,
        r.action = Action.CLOSE_PUT ∧ r.existing_position = some p ∧
        r.quantity = |p.quantity|) ∧
    (∀ p ∈ positions, p.position_type = "option" → p.right = some "C" →
      0 < p.quantity → ∀ e, p.expiration = some e → 0 < |p.avg_cost| →
      (|p.avg_cost| - |p.market_value|) / |p.avg_cost| * 100 ≥
        cfg.roll_when_pnl_percent →
      ∃ r ∈ wheelAnalyze cfg today stockPrice chain positions account,
        r.action = Action.CLOSE_CALL ∧ r.existing_position = some p ∧
        r.quantity = |p.quantity|) := by
  have hput : ∀ p ∈ positions, p.position_type = "option" → p.right = some "P" →
      ∀ r, checkPutPosition cfg today p stockPrice chain = some r →
        r ∈ wheelAnalyze cfg today stockPrice chain positions account := by
    intro p hp htype hright r hr
    unfold wheelAnalyze
    rw [if_neg (not_not_intro henabled)]
    dsimp only
    refine List.mem_append_left _ (List.mem_append_left _ ?_)
    refine List.mem_filterMap.mpr ⟨p, ?_, hr⟩
    exact List.mem_filter.mpr ⟨hp, by simp [htype, hright]⟩
  have hcall : ∀ p ∈ positions, p.position_type = "option" → p.right = some "C" →
      ∀ r, checkCallPosition cfg today p stockPrice chain = some r →
        r ∈ wheelAnalyze cfg today stockPrice chain positions account := by
    intro p hp htype hright r hr
    unfold wheelAnalyze
    rw [if_neg (not_not_intro henabled)]
    dsimp only
    refine List.mem_append_left _ (List.mem_append_right _ ?_)
    refine List.mem_filterMap.mpr ⟨p, ?_, hr⟩
    exact List.mem_filter.mpr ⟨hp, by simp [htype, hright]⟩
  refine ⟨hput, hcall, ?_, ?_⟩
  · intro p hp htype hright hqty e hexp hcred hprofit
    have hchk : checkPutPosition cfg today p stockPrice chain =
        some { action := Action.CLOSE_PUT, symbol := cfg.symbol,
               quantity := |p.quantity|, strategy_type := StrategyType.WHEEL,
               existing_position := some p,
               reasoning := Reason.closePutForProfit
                 ((|p.avg_cost| - |p.market_value|) / |p.avg_cost| * 100)
                 cfg.roll_when_pnl_percent } := by
      unfold checkPutPosition
      rw [hexp]
      dsimp only
      rw [if_pos hcred, if_pos hprofit]
    exact ⟨_, hput p hp htype hright _ hchk, rfl, rfl, rfl⟩
  · intro p hp htype hright hqty e hexp hcred hprofit
    have hchk : checkCallPosition cfg today p stockPrice chain =
        some { action := Action.CLOSE_CALL, symbol := cfg.symbol,
               quantity := |p.quantity|, strategy_type := StrategyType.WHEEL,
               existing_position := some p,
               reasoning := Reason.closeCallForProfit
                 ((|p.avg_cost| - |p.market_value|) / |p.avg_cost| * 100)
                 cfg.roll_when_pnl_percent } := by
      unfold checkCallPosition
      rw [hexp]
      dsimp only
      rw [if_pos hcred, if_pos hprofit]
    exact ⟨_, hcall p hp htype hright _ hchk, rfl, rfl, rfl⟩

/-- Witness for C10: a long put (quantity +2) at 80 percent profit yields a
close recommendation for 2 contracts. -/
theorem wheel_analyze_checks_all_option_positions_witness :
    ∃ r ∈ wheelAnalyze { symbol := "SPY" } 0 450 [] [sampleProfitLongPut]
        { net_liquidation := 100000, buying_power := 50000, margin_used := 0 },
      r.action = Action.CLOSE_PUT ∧
      r.existing_position = some sampleProfitLongPut ∧ r.quantity = 2 := by
  obtain ⟨r, hmem, ha, hex, hq⟩ :=
    (wheel_analyze_checks_all_option_positions { symbol := "SPY" } 0 450 []
      [sampleProfitLongPut]
      { net_liquidation := 100000, buying_power := 50000, margin_used := 0 }
      rfl).2.2.1 sampleProfitLongPut (by simp) rfl rfl (by norm_num [sampleProfitLongPut])
      10 rfl (by norm_num [sampleProfitLongPut])
      (by norm_num [sampleProfitLongPut])
  refine ⟨r, hmem, ha, hex, ?_⟩
  rw [hq]
  norm_num [sampleProfitLongPut]

/-- The four-way sign guard of `_identify_iron_condor_positions`, applied to
a sorted put pair `(p0, p1)` and call pair `(c0, c1)`, holds iff each pair
has one strictly negative and one strictly positive quantity — in either
order. -/
lemma identify_pair_guard (p0 p1 c0 c1 : Position) :
    ((if p1.quantity < 0 then p1 else p0).quantity < 0 ∧
      (if p0.quantity > 0 then p0 else p1).quantity > 0 ∧
      (if c0.quantity < 0 then c0 else c1).quantity < 0 ∧
      (if c1.quantity > 0 then c1 else c0).quantity > 0) ↔
    (((p0.quantity < 0 ∧ 0 < p1.quantity) ∨ (0 < p0.quantity ∧ p1.quantity < 0)) ∧
      ((c0.quantity < 0 ∧ 0 < c1.quantity) ∨ (0 < c0.quantity ∧ c1.quantity < 0))) := by
  by_cases h1 : p1.quantity < 0 <;> by_cases h2 : p0.quantity > 0 <;>
  by_cases h3 : c0.quantity < 0 <;> by_cases h4 : c1.quantity > 0 <;>
    simp [h1, h2, h3, h4] <;> omega

/-- C2 counterexample: four positions at one expiration whose put side is
inverted — short put at the lower strike 435, long put at the higher strike
440 — violate the claim's role constraints, yet
`_identify_iron_condor_positions` reports exactly one iron condor group
(labelling the legs by sign). -/
theorem identify_inverted_put_spread_reported :
    identifyIronCondorPositions
        [invertedShortPut, invertedLongPut, sampleShortCall, sampleLongCall] =
      [{ expiration := 30, long_put := invertedLongPut,
         short_put := invertedShortPut, short_call := sampleShortCall,
         long_call := sampleLongCall }] ∧
    strikeD invertedShortPut < strikeD invertedLongPut ∧
    invertedShortPut.quantity < 0 ∧ 0 < invertedLongPut.quantity := by
  refine ⟨?_, by norm_num [strikeD, invertedShortPut, invertedLongPut], ?_, ?_⟩
  · simp [identifyIronCondorPositions, expirationKeys, optionPositions,
      groupForExpiration, identifyAtExpiration, invertedShortPut,
      invertedLongPut, sampleShortCall, sampleLongCall, strikeD,
      List.filter_cons, List.flatMap]
    norm_num
  · norm_num [invertedShortPut]
  · norm_num [invertedLongPut]

/-- C2 (amended): for a position list whose option positions live at a
single expiration and comprise exactly two puts and two calls,
`_identify_iron_condor_positions` reports a group iff each of the put pair
and the call pair consists of one strictly-negative-quantity leg and one
strictly-positive-quantity leg; every reported group labels the
negative-quantity legs short and the positive-quantity legs long, but no
constraint ties the short/long role to the strike order. -/
theorem identify_iron_condor_sign_characterization (positions : List Position)
    (e : Int) (pa pb ca cb : Position)
    (hek : expirationKeys positions = [e])
    (hp : (groupForExpiration positions e).filter
      (fun p => decide (p.right = some "P")) = [pa, pb])
    (hc : (groupForExpiration positions e).filter
      (fun p => decide (p.right = some "C")) = [ca, cb]) :
    (identifyIronCondorPositions positions ≠ [] ↔
      (((pa.quantity < 0 ∧ 0 < pb.quantity) ∨ (0 < pa.quantity ∧ pb.quantity < 0)) ∧
       ((ca.quantity < 0 ∧ 0 < cb.quantity) ∨ (0 < ca.quantity ∧ cb.quantity < 0)))) ∧
    (∀ g ∈ identifyIronCondorPositions positions,
      g.short_put.quantity < 0 ∧ 0 < g.long_put.quantity ∧
      g.short_call.quantity < 0 ∧ 0 < g.long_call.quantity) := by
  have hred : identifyIronCondorPositions positions =
      identifyAtExpiration e (groupForExpiration positions e) := by
    unfold identifyIronCondorPositions
    rw [hek]
    simp
  have hnonempty : ∀ (c : Prop) (inst : Decidable c) (g : IronCondorGroup),
      ((if c then [g] else []) ≠ [] ↔ c) := by
    intro c inst g
    split_ifs with h <;> simp [h]
  rw [hred]
  unfold identifyAtExpiration
  rw [hp, hc]
  dsimp only
  have hmem : ∀ (c : Prop) (inst : Decidable c) (g x : IronCondorGroup),
      x ∈ (if c then [g] else []) → c ∧ x = g := by
    intro c inst g x hx
    split_ifs at hx with h
    · exact ⟨h, by simpa using hx⟩
    · simp at hx
  constructor
  · by_cases hsp : strikeD pb < strikeD pa <;>
    by_cases hsc : strikeD cb < strikeD ca <;>
      simp only [hsp, hsc, if_true, if_false] <;>
      rw [hnonempty _ _ _] <;>
      exact (identify_pair_guard _ _ _ _).trans (by tauto)
  · intro g hgmem
    obtain ⟨hg, hge⟩ := hmem _ _ _ _ hgmem
    subst hge
    exact ⟨hg.1, hg.2.1, hg.2.2.1, hg.2.2.2⟩

/-- Witness for the amended C2: the inverted-put-spread positions satisfy
the sign condition, so a group is reported. -/
theorem identify_sign_characterization_witness :
    identifyIronCondorPositions
      [invertedShortPut, invertedLongPut, sampleShortCall, sampleLongCall] ≠ [] := by
  have h := identify_iron_condor_sign_characterization
    [invertedShortPut, invertedLongPut, sampleShortCall, sampleLongCall] 30
    invertedShortPut invertedLongPut sampleShortCall sampleLongCall rfl rfl rfl
  exact h.1.mpr
    ⟨Or.inl ⟨by decide, by decide⟩, Or.inl ⟨by decide, by decide⟩⟩

/-- C9 counterexample: a `sell_iron_condor` recommendation with positive net
liquidation and zero margin usage is still rejected when the symbol's
existing absolute market-value exposure exceeds the concentration limit, so
`validate_trade` does not approve it "however many positions are open". -/
theorem ic_validate_counterexample :
    (0 : ℚ) <
      ({ net_liquidation := 1000, buying_power := 0, margin_used := 0 } :
        AccountInfo).net_liquidation ∧
    ({ net_liquidation := 1000, buying_power := 0, margin_used := 0 } :
        AccountInfo).margin_used /
      ({ net_liquidation := 1000, buying_power := 0, margin_used := 0 } :
        AccountInfo).net_liquidation ≤
      ({} : RiskConfig).max_portfolio_margin_usage ∧
    (validateTrade {} []
      { action := Action.SELL_IRON_CONDOR, symbol := "SPY", quantity := 1,
        strategy_type := StrategyType.IRON_CONDOR }
      [{ symbol := "SPY", position_type := "option", quantity := -1,
         avg_cost := 0, market_value := 1000000 }]
      { net_liquidation := 1000, buying_power := 0, margin_used := 0 }
      (some 99)).approved = false := by
  refine ⟨by norm_num, by norm_num, ?_⟩
  norm_num [validateTrade, checkVixLimits, checkMarginUsage,
    checkPositionLimits, checkConcentration, checkBuyingPower,
    estimateMarginRequirement, estimateBuyingPowerRequirement,
    estimatePositionValue, symbolExposure, lookupSymbolConfig, pyInt]

/-- C9 (amended): the risk engine treats only `sell_put` and `sell_call` as
opening actions, so a `sell_iron_condor` recommendation never records a VIX
or position-count violation and its estimated margin and buying-power
requirements are zero; `validate_trade` approves it — for every VIX and
every position count — provided additionally that buying power is
nonnegative and the symbol's existing absolute market-value exposure stays
within both the global and the symbol-specific concentration limits. -/
theorem ic_validate_amended (cfg : RiskConfig)
    (symCfgs : List (String × SymbolConfig)) (r : TradeRecommendation)
    (positions : List Position) (account : AccountInfo) (vix : ℚ)
    (ha : r.action = Action.SELL_IRON_CONDOR) :
    (checkVixLimits cfg vix r).violations = [] ∧
    (checkVixLimits cfg vix r).adjusted_quantity = none ∧
    (checkPositionLimits cfg symCfgs r positions).violations = [] ∧
    estimateMarginRequirement r = 0 ∧
    estimateBuyingPowerRequirement r = 0 ∧
    (r.strike = none →
      0 < account.net_liquidation →
      account.margin_used / account.net_liquidation ≤
        cfg.max_portfolio_margin_usage →
      0 ≤ account.buying_power →
      symbolExposure positions r.symbol / account.net_liquidation ≤
        cfg.max_concentration_per_symbol →
      (∀ sc, lookupSymbolConfig symCfgs r.symbol = some sc →
        sc.max_position_size_percent ≠ 0 →
        symbolExposure positions r.symbol / account.net_liquidation ≤
          sc.max_position_size_percent / 100) →
      (validateTrade cfg symCfgs r positions account (some vix)).approved = true) := by
  have hnotOpen : ¬(r.action = Action.SELL_PUT ∨ r.action = Action.SELL_CALL) := by
    rw [ha]
    rintro (h | h) <;> cases h
  have hvix : checkVixLimits cfg vix r =
      { approved := true, violations := [], reasons := [],
        adjusted_quantity := none } := by
    unfold checkVixLimits
    dsimp only
    rcases cfg.max_vix_for_new_positions with _ | maxVix <;>
    rcases cfg.reduce_size_when_vix_above with _ | threshold <;>
      simp [hnotOpen]
  have hpos : checkPositionLimits cfg symCfgs r positions =
      { approved := true, violations := [], reasons := [],
        adjusted_quantity := none } := by
    unfold checkPositionLimits
    dsimp only
    rcases cfg.max_total_positions with _ | maxTotal <;>
    rcases lookupSymbolConfig symCfgs r.symbol with _ | sc <;>
      simp [hnotOpen]
  have hmr : estimateMarginRequirement r = 0 := by
    unfold estimateMarginRequirement
    rw [ha]
    simp
  refine ⟨by rw [hvix], by rw [hvix], by rw [hpos], hmr,
    by unfold estimateBuyingPowerRequirement; exact hmr, ?_⟩
  intro hstrike heq hmargin hbp hconc hsym
  have hmargin_ok : checkMarginUsage cfg r positions account =
      { approved := true, violations := [], reasons := [],
        adjusted_quantity := none } := by
    unfold checkMarginUsage
    dsimp only
    rw [if_neg (not_le.mpr heq), hmr, add_zero]
    rw [if_neg (not_lt.mpr hmargin)]
  have hpv : estimatePositionValue r = 0 := by
    unfold estimatePositionValue
    rw [hstrike]
  have hconc_ok : checkConcentration cfg symCfgs r positions account =
      { approved := true, violations := [], reasons := [],
        adjusted_quantity := none } := by
    unfold checkConcentration
    dsimp only
    rw [if_neg (not_le.mpr heq), hpv, add_zero]
    have hg : ¬(symbolExposure positions r.symbol / account.net_liquidation >
        cfg.max_concentration_per_symbol) := not_lt.mpr hconc
    rcases hl : lookupSymbolConfig symCfgs r.symbol with _ | sc
    · simp [hg]
    · by_cases hz : sc.max_position_size_percent = 0
      · simp [hg, hz]
      · have hs : ¬(symbolExposure positions r.symbol / account.net_liquidation >
            sc.max_position_size_percent / 100) := not_lt.mpr (hsym sc hl hz)
        simp [hg, hz, hs]
  have hbp_ok : checkBuyingPower r account =
      { approved := true, violations := [], reasons := [],
        adjusted_quantity := none } := by
    unfold checkBuyingPower
    dsimp only
    rw [show estimateBuyingPowerRequirement r = 0 from hmr]
    rw [if_neg (not_lt.mpr hbp)]
  simp [validateTrade, hvix, hmargin_ok, hpos, hconc_ok, hbp_ok]

/-- Witness for the amended C9: a concrete iron-condor recommendation passes
validation at VIX 99 with three open positions in another symbol. -/
theorem ic_validate_amended_witness :
    (validateTrade {} []
      { action := Action.SELL_IRON_CONDOR, symbol := "SPY", quantity := 1,
        strategy_type := StrategyType.IRON_CONDOR }
      [{ symbol := "QQQ", position_type := "option", quantity := -1,
         avg_cost := -1, market_value := -100 },
       { symbol := "QQQ", position_type := "option", quantity := -1,
         avg_cost := -1, market_value := -100 },
       { symbol := "QQQ", position_type := "option", quantity := -1,
         avg_cost := -1, market_value := -100 }]
      { net_liquidation := 100000, buying_power := 50000, margin_used := 10000 }
      (some 99)).approved = true := by
  have h := ic_validate_amended {} []
    { action := Action.SELL_IRON_CONDOR, symbol := "SPY", quantity := 1,
      strategy_type := StrategyType.IRON_CONDOR }
    [{ symbol := "QQQ", position_type := "option", quantity := -1,
       avg_cost := -1, market_value := -100 },
     { symbol := "QQQ", position_type := "option", quantity := -1,
       avg_cost := -1, market_value := -100 },
     { symbol := "QQQ", position_type := "option", quantity := -1,
       avg_cost := -1, market_value := -100 }]
    { net_liquidation := 100000, buying_power := 50000, margin_used := 10000 }
    99 rfl
  refine h.2.2.2.2.2 rfl (by norm_num) (by norm_num) (by norm_num) ?_ ?_
  · simp [symbolExposure, List.filter_cons]
  · intro sc hsc hz
    simp [lookupSymbolConfig] at hsc

end ThetaGang
